import Mathlib

/-!
Verification of the cross-schema user identity resolution and auto-provisioning
logic of the dealsnow backend.

The model is a shallow embedding of the resolver functions in
`src/lambda-functions/manage_users.py` (`resolve_user_id`,
`resolve_numeric_id_cross_schema`, `auto_create_user_in_india`,
`auto_create_user_in_master`, `handle_database_error`) and in
`src/lambda-functions/bookmark_management.py` (`resolve_user_id_fast`,
`auto_create_user_cross_schema`).

The database is modelled as two tables (schemas `deals_master` / `deals_india`),
each a list of user rows plus a next-id counter.  Every `cur.execute` +
`fetchone` round trip is one storage call; a fault schedule decides, per call
index, whether the call behaves normally, raises an exception (whose message
string is then classified by `handle_database_error`, exactly as the Python
code classifies `str(e)`), or anomalously returns no row (`fetchone` yielding
`None` where a row was expected).  `conn.commit()` / `conn.rollback()` are
recorded as effects on the run state.
-/

/-- Case-insensitive substring test on character lists (model of Python's
`needle in hay`). -/
def charsStartWith : List Char → List Char → Bool
  | _, [] => true
  | [], _ :: _ => false
  | a :: as, b :: bs => a == b && charsStartWith as bs

/-- `charsHasSub hay needle` is `true` iff `needle` occurs contiguously in `hay`. -/
def charsHasSub : List Char → List Char → Bool
  | [], needle => needle.isEmpty
  | h :: t, needle => charsStartWith (h :: t) needle || charsHasSub t needle

/-- `hasSub hay needle`: model of Python's `needle in hay` substring test. -/
def hasSub (hay needle : String) : Bool :=
  charsHasSub hay.data needle.data

/-- Model of Python's `str.isdigit()` on ASCII input: nonempty and all digits. -/
def pyIsDigit (s : String) : Bool :=
  !s.data.isEmpty && s.data.all Char.isDigit

/-- Model of Python's `int(...)` applied to an all-digit string: fold the
decimal digits. -/
def toNatD (s : String) : Nat :=
  s.data.foldl (fun acc c => acc * 10 + (c.toNat - 48)) 0

/-- Model of Python's `str.strip()`: drop whitespace from both ends. -/
def pyStrip (s : String) : String :=
  ⟨((s.data.dropWhile Char.isWhitespace).reverse.dropWhile Char.isWhitespace).reverse⟩

/-- Model of Python's `str.lower()` on ASCII input. -/
def strLower (s : String) : String :=
  ⟨s.data.map Char.toLower⟩

/-- The two database schemas (`deals_master` / `deals_india`). -/
inductive Schema where
  | master
  | india
deriving DecidableEq, Repr

/-- The opposite schema, as computed throughout the source by comparing the
schema name against the literals `deals_india` / `deals_master`. -/
def Schema.other : Schema → Schema
  | .master => .india
  | .india => .master

/-- One row of a `users` table, with the columns the resolver touches. -/
structure UserRow where
  id : Nat
  name : String
  email : String
  password_hash : String
  preferred_categories : String
  preferred_stores : String
  gender : String
  city : String
  notifications : String
  notification_frequency : String
deriving DecidableEq, Repr

/-- The nine non-id profile columns, as selected by the auto-creation queries
(`master_user[1:]` / `india_user[1:]` in the source). -/
structure Profile where
  name : String
  email : String
  password_hash : String
  preferred_categories : String
  preferred_stores : String
  gender : String
  city : String
  notifications : String
  notification_frequency : String
deriving DecidableEq, Repr

/-- Project a row onto its profile columns. -/
def UserRow.profile (r : UserRow) : Profile :=
  ⟨r.name, r.email, r.password_hash, r.preferred_categories, r.preferred_stores,
   r.gender, r.city, r.notifications, r.notification_frequency⟩

/-- Rebuild a row from a profile and a freshly assigned id. -/
def Profile.toRow (p : Profile) (id : Nat) : UserRow :=
  ⟨id, p.name, p.email, p.password_hash, p.preferred_categories, p.preferred_stores,
   p.gender, p.city, p.notifications, p.notification_frequency⟩

/-- One `users` table: its rows plus the sequence value backing the id column. -/
structure Table where
  rows : List UserRow
  nextId : Nat
deriving DecidableEq, Repr

/-- The whole database: one `users` table per schema. -/
structure DB where
  master : Table
  india : Table
deriving DecidableEq, Repr

/-- The table of a given schema. -/
def DB.tbl (db : DB) : Schema → Table
  | .master => db.master
  | .india => db.india

/-- Replace the table of a given schema. -/
def DB.setTbl (db : DB) : Schema → Table → DB
  | .master, t => { db with master := t }
  | .india, t => { db with india := t }

/-- Transaction-control calls issued on the shared connection. -/
inductive Effect where
  | commit
  | rollback
deriving DecidableEq, Repr

/-- Behaviour of one storage call under the fault schedule: normal, raising an
exception with the given message, or anomalously returning no row. -/
inductive FaultAction where
  | ok
  | raiseErr (msg : String)
  | empty
deriving DecidableEq, Repr

/-- A fault schedule: behaviour of the n-th storage call of a run. -/
def FaultSpec := Nat → FaultAction

/-- The fault-free schedule. -/
def noFault : FaultSpec := fun _ => .ok

/-- Run state threaded through a resolution: current database, transaction
effects issued so far, and the number of storage calls made so far. -/
structure St where
  db : DB
  effects : List Effect
  calls : Nat
deriving DecidableEq, Repr

/-- Advance the storage-call counter. -/
def stBump (s : St) : St :=
  { s with calls := s.calls + 1 }

/-- Append a transaction-control effect. -/
def emit (s : St) (e : Effect) : St :=
  { s with effects := s.effects ++ [e] }

/-- Outcome of one storage call: a (possibly absent) fetched value, or a raised
exception carrying the message string. -/
inductive OpOut (β : Type) where
  | ok (v : Option β)
  | exn (msg : String)

/-- A read-only storage call (`cur.execute(SELECT ...)` + `fetchone`). -/
def readOp {β : Type} (f : FaultSpec) (s : St) (q : DB → Option β) : OpOut β × St :=
  match f s.calls with
  | .raiseErr m => (.exn m, stBump s)
  | .empty => (.ok none, stBump s)
  | .ok => (.ok (q s.db), stBump s)

/-- A writing storage call (`INSERT ... RETURNING id` + `fetchone`).  The
statement semantics `g` may itself raise (e.g. a uniqueness violation); the
`.empty` fault models `fetchone` returning no row after the statement. -/
def writeOp (f : FaultSpec) (s : St) (g : DB → Except String (Nat × DB)) : OpOut Nat × St :=
  match f s.calls with
  | .raiseErr m => (.exn m, stBump s)
  | .empty => (.ok none, stBump s)
  | .ok =>
    match g s.db with
    | .error m => (.exn m, stBump s)
    | .ok (i, db2) => (.ok (some i), { db := db2, effects := s.effects, calls := s.calls + 1 })

/-- An HTTP-style error response as built by the handlers (status code plus the
`error` and `details` fields of the JSON body; responses whose body has no
`details` field carry the empty string). -/
structure ErrResponse where
  statusCode : Nat
  error : String
  details : String
deriving DecidableEq, Repr

/-- Model of `handle_database_error` in both lambda files: classify the
exception text by substring matching, always yielding a 500 response. -/
def handle_database_error (m : String) (operation : String) : ErrResponse :=
  let ls := strLower m
  if hasSub ls "permission denied" then
    ⟨500, "Database permission error. Please contact administrator.",
     "The database user lacks necessary permissions for this operation."⟩
  else if hasSub ls "relation" && hasSub ls "does not exist" then
    ⟨500, "Database schema error. Required tables do not exist.",
     "Please run the database schema updates."⟩
  else if hasSub ls "connection" then
    ⟨500, "Database connection failed.",
     "Unable to connect to the database server."⟩
  else
    ⟨500, "Database error during " ++ operation,
     "An unexpected database error occurred."⟩

/-- Result of a resolver call: the `(user_id, error_response)` pair returned by
the Python functions, together with the final run state. -/
abbrev Res := (Option Nat × Option ErrResponse) × St

/-- Merge function of the `ON CONFLICT (email) DO UPDATE` clause in
`auto_create_user_in_master`: update the mutable profile fields, keep id,
email and password hash. -/
def mergeMaster (r : UserRow) (p : Profile) : UserRow :=
  { r with name := p.name, preferred_categories := p.preferred_categories,
           preferred_stores := p.preferred_stores, gender := p.gender,
           city := p.city, notifications := p.notifications,
           notification_frequency := p.notification_frequency }

/-- Merge function of the `ON CONFLICT (email) DO UPDATE` clause in
`auto_create_user_cross_schema` (bookmark lambda): update only the name. -/
def mergeBookmark (r : UserRow) (p : Profile) : UserRow :=
  { r with name := p.name }

/-- Replace the first row whose email equals `p.email` by its merge with `p`
(the unique conflicting row of an `ON CONFLICT (email)` upsert). -/
def replaceFirstByEmail (merge : UserRow → Profile → UserRow) (p : Profile) :
    List UserRow → List UserRow
  | [] => []
  | r :: rs =>
    if r.email == p.email then merge r p :: rs
    else r :: replaceFirstByEmail merge p rs

/-- Table-level semantics of `INSERT ... ON CONFLICT (email) DO UPDATE ...
RETURNING id`: on conflict merge into the existing row and return its id,
otherwise insert a fresh row under the next id. -/
def upsertTbl (merge : UserRow → Profile → UserRow) (p : Profile) (t : Table) :
    Nat × Table :=
  match t.rows.find? (fun r => r.email == p.email) with
  | some r => (r.id, { t with rows := replaceFirstByEmail merge p t.rows })
  | none => (t.nextId, ⟨t.rows ++ [p.toRow t.nextId], t.nextId + 1⟩)

/-- Database-level wrapper of `upsertTbl` on the table of a schema. -/
def upsertStmt (merge : UserRow → Profile → UserRow) (sch : Schema) (p : Profile)
    (db : DB) : Nat × DB :=
  ((upsertTbl merge p (db.tbl sch)).1, db.setTbl sch (upsertTbl merge p (db.tbl sch)).2)

/-- Exception message of a PostgreSQL uniqueness violation. -/
def dupKeyMsg : String := "duplicate key value violates unique constraint"

/-- Table-level semantics of the plain `INSERT ... RETURNING id` in
`auto_create_user_in_india` (no conflict clause): with a unique email
constraint in force, inserting an already-present email raises. -/
def insertIndiaTbl (p : Profile) (t : Table) : Except String (Nat × Table) :=
  if t.rows.any (fun r => r.email == p.email) then .error dupKeyMsg
  else .ok (t.nextId, ⟨t.rows ++ [p.toRow t.nextId], t.nextId + 1⟩)

/-- Database-level wrapper of `insertIndiaTbl` on the india table. -/
def insertIndiaStmt (p : Profile) (db : DB) : Except String (Nat × DB) :=
  (insertIndiaTbl p db.india).map (fun it => (it.1, db.setTbl .india it.2))

/-- The 404 response of `auto_create_user_in_master` (also produced when the
upsert yields no row). -/
def notFoundAnySchema (ident : String) : ErrResponse :=
  ⟨404, "User not found in any schema", "No user found with identifier: " ++ ident⟩

/-- Model of `auto_create_user_in_india` (manage_users.py): source the profile
from `deals_master` by email, return an already-mirrored india row when
present, otherwise plain-insert into `deals_india`, commit, and verify. -/
def auto_create_user_in_india (f : FaultSpec) (ident : String) (s : St) : Res :=
  match readOp f s (fun db => (db.tbl .master).rows.find? (fun r => r.email == ident)) with
  | (.exn m, s1) =>
    ((none, some (handle_database_error m "user auto-creation")), emit s1 .rollback)
  | (.ok none, s1) =>
    ((none, some ⟨404, "User not found in master schema",
      "No user found with email: " ++ ident⟩), s1)
  | (.ok (some masterRow), s1) =>
    match readOp f s1
        (fun db => ((db.tbl .india).rows.find? (fun r => r.email == masterRow.email)).map
          (fun r => r.id)) with
    | (.exn m, s2) =>
      ((none, some (handle_database_error m "user auto-creation")), emit s2 .rollback)
    | (.ok (some eid), s2) => ((some eid, none), s2)
    | (.ok none, s2) =>
      match writeOp f s2 (insertIndiaStmt masterRow.profile) with
      | (.exn m, s3) =>
        ((none, some ⟨500, "Failed to insert user in India schema", m⟩), emit s3 .rollback)
      | (.ok none, s3) =>
        ((none, some ⟨500, "Failed to create user in India schema",
          "User insertion succeeded but no ID returned"⟩), emit s3 .rollback)
      | (.ok (some newId), s3) =>
        let s4 := emit s3 .commit
        match readOp f s4
            (fun db => (db.tbl .india).rows.find? (fun r => r.id == newId)) with
        | (.exn m, s5) =>
          ((none, some ⟨500, "Failed to insert user in India schema", m⟩), emit s5 .rollback)
        | (.ok (some _), s5) => ((some newId, none), s5)
        | (.ok none, s5) =>
          ((none, some ⟨500, "User creation verification failed",
            "User was created but cannot be found immediately after"⟩), s5)

/-- Model of `auto_create_user_in_master` (manage_users.py): source the row
from `deals_india` by email or textual id, upsert into `deals_master` with the
full-merge conflict clause, and commit; a missing source row and a rowless
upsert both yield the same 404 response. -/
def auto_create_user_in_master (f : FaultSpec) (ident : String) (s : St) : Res :=
  match readOp f s
      (fun db => (db.tbl .india).rows.find?
        (fun r => r.email == ident || Nat.repr r.id == ident)) with
  | (.exn m, s1) => ((none, some (handle_database_error m "user auto-creation")), s1)
  | (.ok none, s1) => ((none, some (notFoundAnySchema ident)), s1)
  | (.ok (some indiaRow), s1) =>
    match writeOp f s1 (fun db => .ok (upsertStmt mergeMaster .master indiaRow.profile db)) with
    | (.exn m, s2) => ((none, some (handle_database_error m "user auto-creation")), s2)
    | (.ok r, s2) =>
      let s3 := emit s2 .commit
      match r with
      | some nid => ((some nid, none), s3)
      | none => ((none, some (notFoundAnySchema ident)), s3)

/-- Model of `resolve_numeric_id_cross_schema` (manage_users.py): read the
email of the numeric id from the opposite schema, then resolve it in the
target schema, auto-creating when absent. -/
def resolve_numeric_id_cross_schema (f : FaultSpec) (user_id : Nat)
    (target : Schema) (s : St) : Res :=
  match readOp f s
      (fun db => ((db.tbl target.other).rows.find? (fun r => r.id == user_id)).map
        (fun r => r.email)) with
  | (.exn m, s1) =>
    ((none, some (handle_database_error m "cross-schema user resolution")), s1)
  | (.ok none, s1) =>
    ((none, some ⟨404, "User not found",
      "User ID " ++ Nat.repr user_id ++ " does not exist in any schema"⟩), s1)
  | (.ok (some email), s1) =>
    match readOp f s1
        (fun db => ((db.tbl target).rows.find? (fun r => r.email == email)).map
          (fun r => r.id)) with
    | (.exn m, s2) =>
      ((none, some (handle_database_error m "cross-schema user resolution")), s2)
    | (.ok (some tid), s2) => ((some tid, none), s2)
    | (.ok none, s2) =>
      match target with
      | .india => auto_create_user_in_india f email s2
      | .master => auto_create_user_in_master f email s2

/-- Model of `resolve_user_id` (manage_users.py): classify the identifier as
numeric or email, prefer the direct target-schema match, and fall back to
cross-schema resolution / auto-creation. -/
def resolve_user_id (f : FaultSpec) (user_identifier : String) (schema : Schema)
    (s : St) : Res :=
  let user_str := pyStrip user_identifier
  if pyIsDigit user_str then
    let user_id := toNatD user_str
    match readOp f s (fun db => (db.tbl schema).rows.find? (fun r => r.id == user_id)) with
    | (.exn m, s1) => ((none, some (handle_database_error m "user ID resolution")), s1)
    | (.ok (some _), s1) => ((some user_id, none), s1)
    | (.ok none, s1) => resolve_numeric_id_cross_schema f user_id schema s1
  else
    match readOp f s
        (fun db => ((db.tbl schema).rows.find? (fun r => r.email == user_str)).map
          (fun r => r.id)) with
    | (.exn m, s1) => ((none, some (handle_database_error m "user ID resolution")), s1)
    | (.ok (some i), s1) => ((some i, none), s1)
    | (.ok none, s1) =>
      match schema with
      | .india => auto_create_user_in_india f user_str s1
      | .master => auto_create_user_in_master f user_str s1

/-- Model of `auto_create_user_cross_schema` (bookmark_management.py): source
the profile from the source schema by email and upsert into the target schema
with the name-only merge conflict clause, committing on success. -/
def auto_create_user_cross_schema (f : FaultSpec) (email : String)
    (source target : Schema) (s : St) : Res :=
  match readOp f s
      (fun db => ((db.tbl source).rows.find? (fun r => r.email == email)).map
        (fun r => r.profile)) with
  | (.exn m, s1) =>
    ((none, some (handle_database_error m "user auto-creation")), emit s1 .rollback)
  | (.ok none, s1) => ((none, some ⟨404, "Source user not found", ""⟩), s1)
  | (.ok (some p), s1) =>
    match writeOp f s1 (fun db => .ok (upsertStmt mergeBookmark target p db)) with
    | (.exn m, s2) =>
      ((none, some (handle_database_error m "user auto-creation")), emit s2 .rollback)
    | (.ok (some nid), s2) => ((some nid, none), emit s2 .commit)
    | (.ok none, s2) => ((none, some ⟨500, "Failed to create user", ""⟩), s2)

/-- Model of `resolve_user_id_fast` (bookmark_management.py): same numeric
fallback chain as `resolve_user_id`, but the email path never auto-creates. -/
def resolve_user_id_fast (f : FaultSpec) (user_identifier : String)
    (schema : Schema) (s : St) : Res :=
  let user_str := pyStrip user_identifier
  if pyIsDigit user_str then
    let user_id := toNatD user_str
    match readOp f s (fun db => (db.tbl schema).rows.find? (fun r => r.id == user_id)) with
    | (.exn m, s1) => ((none, some (handle_database_error m "user ID resolution")), s1)
    | (.ok (some row), s1) => ((some row.id, none), s1)
    | (.ok none, s1) =>
      match readOp f s1
          (fun db => ((db.tbl schema.other).rows.find? (fun r => r.id == user_id)).map
            (fun r => r.email)) with
      | (.exn m, s2) => ((none, some (handle_database_error m "user ID resolution")), s2)
      | (.ok none, s2) =>
        ((none, some ⟨404, "User not found in any schema", ""⟩), s2)
      | (.ok (some email), s2) =>
        match readOp f s2
            (fun db => ((db.tbl schema).rows.find? (fun r => r.email == email)).map
              (fun r => r.id)) with
        | (.exn m, s3) =>
          ((none, some (handle_database_error m "user ID resolution")), s3)
        | (.ok (some tid), s3) => ((some tid, none), s3)
        | (.ok none, s3) => auto_create_user_cross_schema f email schema.other schema s3
  else
    match readOp f s
        (fun db => ((db.tbl schema).rows.find? (fun r => r.email == user_str)).map
          (fun r => r.id)) with
    | (.exn m, s1) => ((none, some (handle_database_error m "user ID resolution")), s1)
    | (.ok (some i), s1) => ((some i, none), s1)
    | (.ok none, s1) => ((none, some ⟨404, "User not found by email", ""⟩), s1)

/-- Number of rows of a table carrying a given email. -/
def emailCount (t : Table) (e : String) : Nat :=
  t.rows.countP (fun r => r.email == e)

/-- One full `resolve_user_id` call on a fresh request state over the given
database, fault-free. -/
def runResolve (ident : String) (sch : Schema) (db : DB) : Res :=
  resolve_user_id noFault ident sch ⟨db, [], 0⟩

/-- Concrete master-partition user of the spec's scenarios (id 5, `a@x.com`). -/
def rowAlice : UserRow := ⟨5, "Alice", "a@x.com", "h", "c", "s", "g", "ci", "n", "fr"⟩

/-- Concrete database: `a@x.com` native to `deals_master`, `deals_india` empty. -/
def dbS1 : DB := ⟨⟨[rowAlice], 6⟩, ⟨[], 1⟩⟩

/-- Concrete india-partition user for the id-collision scenario. -/
def rowW1 : UserRow := ⟨7, "U", "u@y.com", "h", "", "", "", "", "", ""⟩

/-- Concrete master-partition user sharing numeric id 7 with `rowW1`. -/
def rowW2 : UserRow := ⟨7, "V", "other@z.com", "h", "", "", "", "", "", ""⟩

/-- Concrete database in which two unrelated users share numeric id 7. -/
def dbW : DB := ⟨⟨[rowW2], 8⟩, ⟨[rowW1], 8⟩⟩

/-- Concrete india-partition user (id 3, `b@y.com`). -/
def rowBob : UserRow := ⟨3, "Bob", "b@y.com", "h", "", "", "", "", "", ""⟩

/-- Concrete database: `b@y.com` native to `deals_india`, `deals_master` empty. -/
def dbBob : DB := ⟨⟨[], 1⟩, ⟨[rowBob], 4⟩⟩

/-- Fault schedule whose third storage call anomalously returns no row. -/
def faultEmptyAt2 : FaultSpec := fun n => if n == 2 then .empty else .ok

/-- Fault schedule whose fourth storage call raises a permission error. -/
def faultRaiseAt3 : FaultSpec :=
  fun n => if n == 3 then .raiseErr "permission denied for table users" else .ok

/-- Concrete row and profile pair sharing an email but differing in every
mutable field, exercising the conflict behaviour of the three insert
statements. -/
def rowOld : UserRow := ⟨1, "Old", "e@x.com", "hp", "c0", "s0", "f", "c1", "n0", "d"⟩

/-- The conflicting profile for `rowOld` (same email, new field values). -/
def profNew : Profile := ⟨"New", "e@x.com", "hq", "c9", "s9", "m", "c2", "n1", "w"⟩

/-- Single-row table containing `rowOld`. -/
def tblOld : Table := ⟨[rowOld], 2⟩

/-- Database shape after mirroring `mr`'s profile into the india partition. -/
def dbMirrorIndia (db : DB) (mr : UserRow) : DB :=
  ⟨db.master, ⟨db.india.rows ++ [mr.profile.toRow db.india.nextId], db.india.nextId + 1⟩⟩

/-- Database shape after mirroring `ir`'s profile into the master partition. -/
def dbMirrorMaster (db : DB) (ir : UserRow) : DB :=
  ⟨⟨db.master.rows ++ [ir.profile.toRow db.master.nextId], db.master.nextId + 1⟩, db.india⟩

/-- Database shape after the master upsert merged `ir`'s profile into an
existing same-email master row. -/
def dbMergeMaster (db : DB) (ir : UserRow) : DB :=
  ⟨⟨replaceFirstByEmail mergeMaster ir.profile db.master.rows, db.master.nextId⟩, db.india⟩

/-! ### Helper lemmas: decimal representations are digit strings -/

theorem digitChar_isDigit (m : Nat) (h : m < 10) : (Nat.digitChar m).isDigit = true := by
  interval_cases m <;> decide

theorem toDigitsCore_all_digits (fuel : Nat) : ∀ (n : Nat) (acc : List Char),
    (∀ c ∈ acc, c.isDigit = true) →
    ∀ c ∈ Nat.toDigitsCore 10 fuel n acc, c.isDigit = true := by
  induction fuel with
  | zero => intro n acc hacc c hc; exact hacc c hc
  | succ fuel ih =>
    intro n acc hacc c hc
    simp only [Nat.toDigitsCore] at hc
    by_cases h0 : n / 10 = 0
    · rw [if_pos h0] at hc
      rcases List.mem_cons.mp hc with h | h
      · subst h; exact digitChar_isDigit _ (Nat.mod_lt _ (by norm_num))
      · exact hacc c h
    · rw [if_neg h0] at hc
      refine ih (n / 10) _ ?_ c hc
      intro d hd
      rcases List.mem_cons.mp hd with h | h
      · subst h; exact digitChar_isDigit _ (Nat.mod_lt _ (by norm_num))
      · exact hacc d h

theorem toDigitsCore_ne_nil (fuel : Nat) : ∀ (n : Nat) (acc : List Char),
    acc ≠ [] → Nat.toDigitsCore 10 fuel n acc ≠ [] := by
  induction fuel with
  | zero => intro n acc hacc; exact hacc
  | succ fuel ih =>
    intro n acc hacc
    simp only [Nat.toDigitsCore]
    by_cases h0 : n / 10 = 0
    · rw [if_pos h0]; exact List.cons_ne_nil _ _
    · rw [if_neg h0]; exact ih (n / 10) _ (List.cons_ne_nil _ _)

theorem toDigits_ne_nil (n : Nat) : Nat.toDigits 10 n ≠ [] := by
  rw [Nat.toDigits]
  simp only [Nat.toDigitsCore]
  by_cases h0 : n / 10 = 0
  · rw [if_pos h0]; exact List.cons_ne_nil _ _
  · rw [if_neg h0]; exact toDigitsCore_ne_nil n (n / 10) _ (List.cons_ne_nil _ _)

theorem pyIsDigit_natRepr (n : Nat) : pyIsDigit (Nat.repr n) = true := by
  have h1 : (Nat.repr n).data = Nat.toDigits 10 n := rfl
  have h2 := toDigits_ne_nil n
  have h3 : ∀ c ∈ Nat.toDigits 10 n, c.isDigit = true :=
    toDigitsCore_all_digits (n + 1) n [] (by intro c hc; cases hc)
  rw [pyIsDigit, h1]
  cases hl : Nat.toDigits 10 n with
  | nil => exact absurd hl h2
  | cons a t =>
    rw [hl] at h3
    simp only [List.isEmpty_cons, Bool.not_false, Bool.true_and, List.all_eq_true]
    exact h3

theorem natRepr_beq_false (t : String) (h : pyIsDigit t = false) (i : Nat) :
    (Nat.repr i == t) = false := by
  cases hb : (Nat.repr i == t) with
  | false => rfl
  | true =>
    have he : Nat.repr i = t := eq_of_beq hb
    rw [← he, pyIsDigit_natRepr] at h
    exact absurd h (by simp)

/-! ### Helper lemmas: `List.find?` and `replaceFirstByEmail` -/

theorem find?_append_none {α : Type} (p : α → Bool) (l₁ l₂ : List α)
    (h : l₁.find? p = none) : (l₁ ++ l₂).find? p = l₂.find? p := by
  rw [List.find?_append, h, Option.none_or]

theorem replaceFirst_keys (merge : UserRow → Profile → UserRow) (p : Profile)
    (hkeys : ∀ r, ((merge r p).id, (merge r p).email) = (r.id, r.email))
    (l : List UserRow) :
    (replaceFirstByEmail merge p l).map (fun r => (r.id, r.email)) =
      l.map (fun r => (r.id, r.email)) := by
  induction l with
  | nil => rfl
  | cons a t ih =>
    rw [replaceFirstByEmail]
    by_cases hae : (a.email == p.email) = true
    · rw [if_pos hae]; simp [hkeys]
    · rw [if_neg hae]; simp [ih]

theorem replaceFirst_find_id_none (merge : UserRow → Profile → UserRow) (p : Profile)
    (hkeys : ∀ r, ((merge r p).id, (merge r p).email) = (r.id, r.email))
    (x : Nat) (l : List UserRow)
    (h : l.find? (fun r => r.id == x) = none) :
    (replaceFirstByEmail merge p l).find? (fun r => r.id == x) = none := by
  have hm := replaceFirst_keys merge p hkeys l
  have e1 : ((replaceFirstByEmail merge p l).map (fun r => (r.id, r.email))).find?
      (fun k => k.1 == x) = (l.map (fun r => (r.id, r.email))).find? (fun k => k.1 == x) := by
    rw [hm]
  rw [List.find?_map, List.find?_map] at e1
  have e2 : (l.find? ((fun k : Nat × String => k.1 == x) ∘ (fun r => (r.id, r.email)))) =
      l.find? (fun r => r.id == x) := rfl
  have e3 : ((replaceFirstByEmail merge p l).find?
      ((fun k : Nat × String => k.1 == x) ∘ (fun r => (r.id, r.email)))) =
      (replaceFirstByEmail merge p l).find? (fun r => r.id == x) := rfl
  rw [e2, e3, h] at e1
  exact Option.map_eq_none'.mp (by rw [e1]; rfl)

theorem replaceFirst_find_email_none (merge : UserRow → Profile → UserRow) (p : Profile)
    (hkeys : ∀ r, ((merge r p).id, (merge r p).email) = (r.id, r.email))
    (e : String) (l : List UserRow)
    (h : l.find? (fun r => r.email == e) = none) :
    (replaceFirstByEmail merge p l).find? (fun r => r.email == e) = none := by
  have hm := replaceFirst_keys merge p hkeys l
  have e1 : ((replaceFirstByEmail merge p l).map (fun r => (r.id, r.email))).find?
      (fun k => k.2 == e) = (l.map (fun r => (r.id, r.email))).find? (fun k => k.2 == e) := by
    rw [hm]
  rw [List.find?_map, List.find?_map] at e1
  have e2 : (l.find? ((fun k : Nat × String => k.2 == e) ∘ (fun r => (r.id, r.email)))) =
      l.find? (fun r => r.email == e) := rfl
  have e3 : ((replaceFirstByEmail merge p l).find?
      ((fun k : Nat × String => k.2 == e) ∘ (fun r => (r.id, r.email)))) =
      (replaceFirstByEmail merge p l).find? (fun r => r.email == e) := rfl
  rw [e2, e3, h] at e1
  exact Option.map_eq_none'.mp (by rw [e1]; rfl)

theorem replaceFirst_countP_email (merge : UserRow → Profile → UserRow) (p : Profile)
    (hkeys : ∀ r, ((merge r p).id, (merge r p).email) = (r.id, r.email))
    (e : String) (l : List UserRow) :
    (replaceFirstByEmail merge p l).countP (fun r => r.email == e) =
      l.countP (fun r => r.email == e) := by
  have hm := replaceFirst_keys merge p hkeys l
  have e1 : ((replaceFirstByEmail merge p l).map (fun r => (r.id, r.email))).countP
      (fun k => k.2 == e) = (l.map (fun r => (r.id, r.email))).countP (fun k => k.2 == e) := by
    rw [hm]
  rw [List.countP_map, List.countP_map] at e1
  exact e1

theorem replaceFirst_find_key (merge : UserRow → Profile → UserRow) (p : Profile)
    (hem : ∀ r, (merge r p).email = r.email) (l : List UserRow) (r : UserRow)
    (h : l.find? (fun row => row.email == p.email) = some r) :
    (replaceFirstByEmail merge p l).find? (fun row => row.email == p.email) =
      some (merge r p) := by
  induction l with
  | nil => cases h
  | cons a t ih =>
    by_cases hae : (a.email == p.email) = true
    · simp only [List.find?, hae] at h
      injection h with h2
      subst h2
      rw [replaceFirstByEmail, if_pos hae]
      simp only [List.find?, hem, hae]
    · have hae2 : (a.email == p.email) = false := by simpa using hae
      simp only [List.find?, hae2] at h
      rw [replaceFirstByEmail, if_neg hae]
      simp only [List.find?, hae2]
      exact ih h

theorem replaceFirst_self (merge : UserRow → Profile → UserRow) (p : Profile)
    (l : List UserRow) (r : UserRow)
    (h : l.find? (fun row => row.email == p.email) = some r) (hfix : merge r p = r) :
    replaceFirstByEmail merge p l = l := by
  induction l with
  | nil => rfl
  | cons a t ih =>
    by_cases hae : (a.email == p.email) = true
    · simp only [List.find?, hae] at h
      injection h with h2
      subst h2
      rw [replaceFirstByEmail, if_pos hae, hfix]
    · have hae2 : (a.email == p.email) = false := by simpa using hae
      simp only [List.find?, hae2] at h
      rw [replaceFirstByEmail, if_neg hae, ih h]

/-! ### Small state and merge facts -/

@[simp] theorem stBump_db (s : St) : (stBump s).db = s.db := rfl

@[simp] theorem stBump_effects (s : St) : (stBump s).effects = s.effects := rfl

@[simp] theorem stBump_calls (s : St) : (stBump s).calls = s.calls + 1 := rfl

@[simp] theorem emit_db (s : St) (e : Effect) : (emit s e).db = s.db := rfl

theorem mergeMaster_toRow (p : Profile) (n : Nat) : mergeMaster (p.toRow n) p = p.toRow n := rfl

theorem mergeMaster_idem (r : UserRow) (p : Profile) :
    mergeMaster (mergeMaster r p) p = mergeMaster r p := rfl

theorem mergeMaster_keys (p : Profile) (r : UserRow) :
    ((mergeMaster r p).id, (mergeMaster r p).email) = (r.id, r.email) := rfl

theorem mergeMaster_email (r : UserRow) (p : Profile) : (mergeMaster r p).email = r.email := rfl

theorem mergeBookmark_toRow (p : Profile) (n : Nat) :
    mergeBookmark (p.toRow n) p = p.toRow n := rfl

theorem mergeBookmark_keys (p : Profile) (r : UserRow) :
    ((mergeBookmark r p).id, (mergeBookmark r p).email) = (r.id, r.email) := rfl

theorem mergeBookmark_email (r : UserRow) (p : Profile) :
    (mergeBookmark r p).email = r.email := rfl

@[simp] theorem profile_email (r : UserRow) : r.profile.email = r.email := rfl

@[simp] theorem toRow_id (p : Profile) (n : Nat) : (p.toRow n).id = n := rfl

@[simp] theorem toRow_email (p : Profile) (n : Nat) : (p.toRow n).email = p.email := rfl

theorem upsertTbl_insert (merge : UserRow → Profile → UserRow) (p : Profile) (t : Table)
    (h : t.rows.find? (fun r => r.email == p.email) = none) :
    upsertTbl merge p t = (t.nextId, ⟨t.rows ++ [p.toRow t.nextId], t.nextId + 1⟩) := by
  simp [upsertTbl, h]

theorem upsertTbl_conflict (merge : UserRow → Profile → UserRow) (p : Profile) (t : Table)
    (r : UserRow) (h : t.rows.find? (fun row => row.email == p.email) = some r) :
    upsertTbl merge p t = (r.id, { t with rows := replaceFirstByEmail merge p t.rows }) := by
  simp [upsertTbl, h]

/-! ### Fault-free path characterizations of the resolver functions -/

theorem resolve_digit_hit (ident : String) (sch : Schema) (s : St) (r : UserRow)
    (hd : pyIsDigit (pyStrip ident) = true)
    (hf : (s.db.tbl sch).rows.find? (fun row => row.id == toNatD (pyStrip ident)) = some r) :
    resolve_user_id noFault ident sch s = ((some (toNatD (pyStrip ident)), none), stBump s) := by
  simp [resolve_user_id, readOp, noFault, hd, hf]

theorem resolve_digit_miss (ident : String) (sch : Schema) (s : St)
    (hd : pyIsDigit (pyStrip ident) = true)
    (hf : (s.db.tbl sch).rows.find? (fun row => row.id == toNatD (pyStrip ident)) = none) :
    resolve_user_id noFault ident sch s =
      resolve_numeric_id_cross_schema noFault (toNatD (pyStrip ident)) sch (stBump s) := by
  simp [resolve_user_id, readOp, noFault, hd, hf]

theorem resolve_email_hit (ident : String) (sch : Schema) (s : St) (r : UserRow)
    (hd : pyIsDigit (pyStrip ident) = false)
    (hf : (s.db.tbl sch).rows.find? (fun row => row.email == pyStrip ident) = some r) :
    resolve_user_id noFault ident sch s = ((some r.id, none), stBump s) := by
  simp [resolve_user_id, readOp, noFault, hd, hf]

theorem resolve_email_miss_india (ident : String) (s : St)
    (hd : pyIsDigit (pyStrip ident) = false)
    (hf : (s.db.tbl .india).rows.find? (fun row => row.email == pyStrip ident) = none) :
    resolve_user_id noFault ident .india s =
      auto_create_user_in_india noFault (pyStrip ident) (stBump s) := by
  simp [resolve_user_id, readOp, noFault, hd, hf]

theorem resolve_email_miss_master (ident : String) (s : St)
    (hd : pyIsDigit (pyStrip ident) = false)
    (hf : (s.db.tbl .master).rows.find? (fun row => row.email == pyStrip ident) = none) :
    resolve_user_id noFault ident .master s =
      auto_create_user_in_master noFault (pyStrip ident) (stBump s) := by
  simp [resolve_user_id, readOp, noFault, hd, hf]

theorem cross_none (uid : Nat) (target : Schema) (s : St)
    (hf : (s.db.tbl target.other).rows.find? (fun r => r.id == uid) = none) :
    resolve_numeric_id_cross_schema noFault uid target s =
      ((none, some ⟨404, "User not found",
        "User ID " ++ Nat.repr uid ++ " does not exist in any schema"⟩), stBump s) := by
  simp [resolve_numeric_id_cross_schema, readOp, noFault, hf]

theorem cross_hit (uid : Nat) (target : Schema) (s : St) (rsrc rt : UserRow)
    (h1 : (s.db.tbl target.other).rows.find? (fun r => r.id == uid) = some rsrc)
    (h2 : (s.db.tbl target).rows.find? (fun r => r.email == rsrc.email) = some rt) :
    resolve_numeric_id_cross_schema noFault uid target s =
      ((some rt.id, none), stBump (stBump s)) := by
  simp [resolve_numeric_id_cross_schema, readOp, noFault, h1, h2]

theorem cross_mirror_india (uid : Nat) (s : St) (rsrc : UserRow)
    (h1 : (s.db.tbl Schema.india.other).rows.find? (fun r => r.id == uid) = some rsrc)
    (h2 : (s.db.tbl .india).rows.find? (fun r => r.email == rsrc.email) = none) :
    resolve_numeric_id_cross_schema noFault uid .india s =
      auto_create_user_in_india noFault rsrc.email (stBump (stBump s)) := by
  simp [resolve_numeric_id_cross_schema, readOp, noFault, h1, h2]

theorem cross_mirror_master (uid : Nat) (s : St) (rsrc : UserRow)
    (h1 : (s.db.tbl Schema.master.other).rows.find? (fun r => r.id == uid) = some rsrc)
    (h2 : (s.db.tbl .master).rows.find? (fun r => r.email == rsrc.email) = none) :
    resolve_numeric_id_cross_schema noFault uid .master s =
      auto_create_user_in_master noFault rsrc.email (stBump (stBump s)) := by
  simp [resolve_numeric_id_cross_schema, readOp, noFault, h1, h2]

theorem auto_india_src_missing (e : String) (s : St)
    (h : (s.db.tbl .master).rows.find? (fun r => r.email == e) = none) :
    auto_create_user_in_india noFault e s =
      ((none, some ⟨404, "User not found in master schema",
        "No user found with email: " ++ e⟩), stBump s) := by
  simp [auto_create_user_in_india, readOp, noFault, h]

theorem auto_india_existing (e : String) (s : St) (mr ex : UserRow)
    (h1 : (s.db.tbl .master).rows.find? (fun r => r.email == e) = some mr)
    (h2 : (s.db.tbl .india).rows.find? (fun r => r.email == mr.email) = some ex) :
    auto_create_user_in_india noFault e s = ((some ex.id, none), stBump (stBump s)) := by
  simp [auto_create_user_in_india, readOp, noFault, h1, h2]

theorem auto_india_insert (e : String) (s : St) (mr : UserRow)
    (h1 : (s.db.tbl .master).rows.find? (fun r => r.email == e) = some mr)
    (h2 : (s.db.tbl .india).rows.find? (fun r => r.email == mr.email) = none) :
    auto_create_user_in_india noFault e s =
      ((some s.db.india.nextId, none),
       { db := s.db.setTbl .india
           ⟨s.db.india.rows ++ [mr.profile.toRow s.db.india.nextId], s.db.india.nextId + 1⟩,
         effects := s.effects ++ [.commit],
         calls := s.calls + 4 }) := by
  simp only [DB.tbl] at h1 h2
  have hnex : ¬ ∃ x ∈ s.db.india.rows, x.email = mr.email := by
    rintro ⟨x, hx, hex⟩
    have hne := List.find?_eq_none.mp h2 x hx
    simp [hex] at hne
  cases hfo : s.db.india.rows.find?
      (fun r => r.id == s.db.india.nextId) with
  | none =>
    simp [auto_create_user_in_india, readOp, writeOp, noFault, h1, h2,
      insertIndiaStmt, insertIndiaTbl, Except.map, hnex, stBump, emit, DB.tbl, DB.setTbl,
      find?_append_none _ _ _ hfo, List.find?]
  | some w =>
    simp [auto_create_user_in_india, readOp, writeOp, noFault, h1, h2,
      insertIndiaStmt, insertIndiaTbl, Except.map, hnex, stBump, emit, DB.tbl, DB.setTbl,
      List.find?_append, hfo, List.find?]

theorem auto_master_src_missing (e : String) (s : St)
    (h : (s.db.tbl .india).rows.find?
        (fun r => r.email == e || Nat.repr r.id == e) = none) :
    auto_create_user_in_master noFault e s =
      ((none, some (notFoundAnySchema e)), stBump s) := by
  simp [auto_create_user_in_master, readOp, noFault, h]

theorem auto_master_upsert (e : String) (s : St) (ir : UserRow)
    (h : (s.db.tbl .india).rows.find?
        (fun r => r.email == e || Nat.repr r.id == e) = some ir) :
    auto_create_user_in_master noFault e s =
      ((some (upsertStmt mergeMaster .master ir.profile s.db).1, none),
       { db := (upsertStmt mergeMaster .master ir.profile s.db).2,
         effects := s.effects ++ [.commit],
         calls := s.calls + 2 }) := by
  rcases hu : upsertStmt mergeMaster .master ir.profile s.db with ⟨i, db2⟩
  simp [auto_create_user_in_master, readOp, writeOp, noFault, h, hu, stBump, emit]

theorem auto_bk_src_missing (e : String) (src tgt : Schema) (s : St)
    (h : (s.db.tbl src).rows.find? (fun r => r.email == e) = none) :
    auto_create_user_cross_schema noFault e src tgt s =
      ((none, some ⟨404, "Source user not found", ""⟩), stBump s) := by
  simp [auto_create_user_cross_schema, readOp, noFault, h]

theorem auto_bk_upsert (e : String) (src tgt : Schema) (s : St) (sr : UserRow)
    (h : (s.db.tbl src).rows.find? (fun r => r.email == e) = some sr) :
    auto_create_user_cross_schema noFault e src tgt s =
      ((some (upsertStmt mergeBookmark tgt sr.profile s.db).1, none),
       { db := (upsertStmt mergeBookmark tgt sr.profile s.db).2,
         effects := s.effects ++ [.commit],
         calls := s.calls + 2 }) := by
  rcases hu : upsertStmt mergeBookmark tgt sr.profile s.db with ⟨i, db2⟩
  simp [auto_create_user_cross_schema, readOp, writeOp, noFault, h, hu, stBump, emit]

theorem fast_digit_hit (ident : String) (sch : Schema) (s : St) (r : UserRow)
    (hd : pyIsDigit (pyStrip ident) = true)
    (hf : (s.db.tbl sch).rows.find? (fun row => row.id == toNatD (pyStrip ident)) = some r) :
    resolve_user_id_fast noFault ident sch s = ((some r.id, none), stBump s) := by
  simp [resolve_user_id_fast, readOp, noFault, hd, hf]

theorem fast_digit_none (ident : String) (sch : Schema) (s : St)
    (hd : pyIsDigit (pyStrip ident) = true)
    (h1 : (s.db.tbl sch).rows.find? (fun row => row.id == toNatD (pyStrip ident)) = none)
    (h2 : (s.db.tbl sch.other).rows.find? (fun row => row.id == toNatD (pyStrip ident)) = none) :
    resolve_user_id_fast noFault ident sch s =
      ((none, some ⟨404, "User not found in any schema", ""⟩), stBump (stBump s)) := by
  simp [resolve_user_id_fast, readOp, noFault, hd, h1, h2]

theorem fast_digit_cross_hit (ident : String) (sch : Schema) (s : St) (rsrc rt : UserRow)
    (hd : pyIsDigit (pyStrip ident) = true)
    (h1 : (s.db.tbl sch).rows.find? (fun row => row.id == toNatD (pyStrip ident)) = none)
    (h2 : (s.db.tbl sch.other).rows.find? (fun row => row.id == toNatD (pyStrip ident)) = some rsrc)
    (h3 : (s.db.tbl sch).rows.find? (fun row => row.email == rsrc.email) = some rt) :
    resolve_user_id_fast noFault ident sch s =
      ((some rt.id, none), stBump (stBump (stBump s))) := by
  simp [resolve_user_id_fast, readOp, noFault, hd, h1, h2, h3]

theorem fast_digit_cross_mirror (ident : String) (sch : Schema) (s : St) (rsrc : UserRow)
    (hd : pyIsDigit (pyStrip ident) = true)
    (h1 : (s.db.tbl sch).rows.find? (fun row => row.id == toNatD (pyStrip ident)) = none)
    (h2 : (s.db.tbl sch.other).rows.find? (fun row => row.id == toNatD (pyStrip ident)) = some rsrc)
    (h3 : (s.db.tbl sch).rows.find? (fun row => row.email == rsrc.email) = none) :
    resolve_user_id_fast noFault ident sch s =
      auto_create_user_cross_schema noFault rsrc.email sch.other sch
        (stBump (stBump (stBump s))) := by
  simp [resolve_user_id_fast, readOp, noFault, hd, h1, h2, h3]

theorem fast_email_hit (ident : String) (sch : Schema) (s : St) (r : UserRow)
    (hd : pyIsDigit (pyStrip ident) = false)
    (hf : (s.db.tbl sch).rows.find? (fun row => row.email == pyStrip ident) = some r) :
    resolve_user_id_fast noFault ident sch s = ((some r.id, none), stBump s) := by
  simp [resolve_user_id_fast, readOp, noFault, hd, hf]

theorem fast_email_miss (ident : String) (sch : Schema) (s : St)
    (hd : pyIsDigit (pyStrip ident) = false)
    (hf : (s.db.tbl sch).rows.find? (fun row => row.email == pyStrip ident) = none) :
    resolve_user_id_fast noFault ident sch s =
      ((none, some ⟨404, "User not found by email", ""⟩), stBump s) := by
  simp [resolve_user_id_fast, readOp, noFault, hd, hf]

/-! ### Result-pair exclusivity (all paths, all fault schedules) -/

theorem excl_auto_india (f : FaultSpec) (e : String) (s : St) :
    (auto_create_user_in_india f e s).1.1.isSome =
      (auto_create_user_in_india f e s).1.2.isNone := by
  rw [auto_create_user_in_india]
  repeat' split
  all_goals try (dsimp only; repeat' split)
  all_goals rfl

theorem excl_auto_master (f : FaultSpec) (e : String) (s : St) :
    (auto_create_user_in_master f e s).1.1.isSome =
      (auto_create_user_in_master f e s).1.2.isNone := by
  rw [auto_create_user_in_master]
  repeat' split
  all_goals rfl

theorem excl_auto_bk (f : FaultSpec) (e : String) (src tgt : Schema) (s : St) :
    (auto_create_user_cross_schema f e src tgt s).1.1.isSome =
      (auto_create_user_cross_schema f e src tgt s).1.2.isNone := by
  rw [auto_create_user_cross_schema]
  repeat' split
  all_goals rfl

theorem excl_cross (f : FaultSpec) (uid : Nat) (target : Schema) (s : St) :
    (resolve_numeric_id_cross_schema f uid target s).1.1.isSome =
      (resolve_numeric_id_cross_schema f uid target s).1.2.isNone := by
  rw [resolve_numeric_id_cross_schema]
  repeat' split
  all_goals first
    | rfl
    | apply excl_auto_india
    | apply excl_auto_master

theorem excl_resolve (f : FaultSpec) (ident : String) (sch : Schema) (s : St) :
    (resolve_user_id f ident sch s).1.1.isSome =
      (resolve_user_id f ident sch s).1.2.isNone := by
  rw [resolve_user_id]
  repeat' split
  all_goals try (dsimp only; repeat' split)
  all_goals first
    | rfl
    | apply excl_cross
    | apply excl_auto_india
    | apply excl_auto_master

theorem excl_fast (f : FaultSpec) (ident : String) (sch : Schema) (s : St) :
    (resolve_user_id_fast f ident sch s).1.1.isSome =
      (resolve_user_id_fast f ident sch s).1.2.isNone := by
  rw [resolve_user_id_fast]
  repeat' split
  all_goals try (dsimp only; repeat' split)
  all_goals first
    | rfl
    | apply excl_auto_bk

/-- C10: for every input (identifier, schema, starting state and fault
schedule), both resolvers return a pair `(user_id, error_response)` of which
exactly one component is non-null: the id is present precisely when the error
response is absent. -/
theorem C10_result_pair_exclusive (f : FaultSpec) (ident : String) (sch : Schema) (s : St) :
    ((resolve_user_id f ident sch s).1.1.isSome =
       (resolve_user_id f ident sch s).1.2.isNone) ∧
    ((resolve_user_id_fast f ident sch s).1.1.isSome =
       (resolve_user_id_fast f ident sch s).1.2.isNone) :=
  ⟨excl_resolve f ident sch s, excl_fast f ident sch s⟩

theorem findor_none_of_email_none (t : String) (ht : pyIsDigit t = false) (l : List UserRow)
    (h : l.find? (fun r => r.email == t) = none) :
    l.find? (fun r => r.email == t || Nat.repr r.id == t) = none := by
  rw [List.find?_eq_none]
  intro x hx hcontra
  rw [natRepr_beq_false t ht x.id, Bool.or_false] at hcontra
  exact (List.find?_eq_none.mp h x hx) hcontra

/-- C2: partition locality of numeric ids — when a user with the given numeric
id exists in the target partition, both resolvers return exactly that id after
a single storage call, leaving the database untouched; the other partition is
never consulted, so a colliding id there is never returned. -/
theorem C2_partition_locality (ident : String) (sch : Schema) (db : DB) (r : UserRow)
    (hd : pyIsDigit (pyStrip ident) = true)
    (hf : (db.tbl sch).rows.find? (fun row => row.id == toNatD (pyStrip ident)) = some r) :
    resolve_user_id noFault ident sch ⟨db, [], 0⟩ =
      ((some (toNatD (pyStrip ident)), none), ⟨db, [], 1⟩) ∧
    resolve_user_id_fast noFault ident sch ⟨db, [], 0⟩ =
      ((some (toNatD (pyStrip ident)), none), ⟨db, [], 1⟩) := by
  have hpr := List.find?_some hf
  have hr : r.id = toNatD (pyStrip ident) := eq_of_beq hpr
  constructor
  · exact resolve_digit_hit ident sch ⟨db, [], 0⟩ r hd hf
  · have hh := fast_digit_hit ident sch ⟨db, [], 0⟩ r hd hf
    rw [hr] at hh
    exact hh

/-- Witness for C2: with unrelated users sharing numeric id 7 in the two
partitions, resolving "7" against india returns india's own user id 7 without
touching the database. -/
theorem C2_partition_locality_witness :
    resolve_user_id noFault "7" .india ⟨dbW, [], 0⟩ = ((some 7, none), ⟨dbW, [], 1⟩) ∧
    resolve_user_id_fast noFault "7" .india ⟨dbW, [], 0⟩ = ((some 7, none), ⟨dbW, [], 1⟩) :=
  C2_partition_locality "7" .india dbW rowW1 (by decide) (by decide)

/-- C3: numeric fallback chain — for a numeric identifier absent from the
target partition, both resolvers look up the other partition by that id; a
miss there yields the 404 response; a hit yields that row's email, which is
resolved in the target partition, returning the matching id when present and
delegating to the respective mirror-creation routine with that email when
absent. -/
theorem C3_numeric_fallback_chain (ident : String) (sch : Schema) (db : DB)
    (hd : pyIsDigit (pyStrip ident) = true)
    (hmiss : (db.tbl sch).rows.find? (fun row => row.id == toNatD (pyStrip ident)) = none) :
    ((db.tbl sch.other).rows.find? (fun row => row.id == toNatD (pyStrip ident)) = none →
      resolve_user_id noFault ident sch ⟨db, [], 0⟩ =
        ((none, some ⟨404, "User not found",
          "User ID " ++ Nat.repr (toNatD (pyStrip ident)) ++ " does not exist in any schema"⟩),
         ⟨db, [], 2⟩) ∧
      resolve_user_id_fast noFault ident sch ⟨db, [], 0⟩ =
        ((none, some ⟨404, "User not found in any schema", ""⟩), ⟨db, [], 2⟩)) ∧
    (∀ rsrc,
      (db.tbl sch.other).rows.find? (fun row => row.id == toNatD (pyStrip ident)) = some rsrc →
      ((∀ rt, (db.tbl sch).rows.find? (fun row => row.email == rsrc.email) = some rt →
         resolve_user_id noFault ident sch ⟨db, [], 0⟩ = ((some rt.id, none), ⟨db, [], 3⟩) ∧
         resolve_user_id_fast noFault ident sch ⟨db, [], 0⟩ = ((some rt.id, none), ⟨db, [], 3⟩)) ∧
       ((db.tbl sch).rows.find? (fun row => row.email == rsrc.email) = none →
         resolve_user_id noFault ident sch ⟨db, [], 0⟩ =
           (match sch with
            | .india => auto_create_user_in_india noFault rsrc.email ⟨db, [], 3⟩
            | .master => auto_create_user_in_master noFault rsrc.email ⟨db, [], 3⟩) ∧
         resolve_user_id_fast noFault ident sch ⟨db, [], 0⟩ =
           auto_create_user_cross_schema noFault rsrc.email sch.other sch ⟨db, [], 3⟩))) := by
  refine ⟨?_, ?_⟩
  · intro hB
    constructor
    · rw [resolve_digit_miss ident sch ⟨db, [], 0⟩ hd hmiss]
      exact cross_none _ sch _ hB
    · exact fast_digit_none ident sch ⟨db, [], 0⟩ hd hmiss hB
  · intro rsrc hB
    constructor
    · intro rt hC
      constructor
      · rw [resolve_digit_miss ident sch ⟨db, [], 0⟩ hd hmiss]
        exact cross_hit _ sch _ rsrc rt hB hC
      · exact fast_digit_cross_hit ident sch ⟨db, [], 0⟩ rsrc rt hd hmiss hB hC
    · intro hC
      constructor
      · rw [resolve_digit_miss ident sch ⟨db, [], 0⟩ hd hmiss]
        cases sch with
        | india => exact cross_mirror_india _ _ rsrc hB hC
        | master => exact cross_mirror_master _ _ rsrc hB hC
      · exact fast_digit_cross_mirror ident sch ⟨db, [], 0⟩ rsrc hd hmiss hB hC

/-- Witness for C3 at the spec's first scenario: id 5 lives only in master, so
resolving "5" against india hands off to mirror-creation with Alice's email. -/
theorem C3_numeric_fallback_chain_witness :
    resolve_user_id noFault "5" .india ⟨dbS1, [], 0⟩ =
      auto_create_user_in_india noFault rowAlice.email ⟨dbS1, [], 3⟩ ∧
    resolve_user_id_fast noFault "5" .india ⟨dbS1, [], 0⟩ =
      auto_create_user_cross_schema noFault rowAlice.email Schema.india.other .india
        ⟨dbS1, [], 3⟩ :=
  ((C3_numeric_fallback_chain "5" .india dbS1 (by decide) (by decide)).2 rowAlice
    (by decide)).2 (by decide)

/-- C6: no orphan creation — when the identifier matches no user in either
partition, `resolve_user_id` returns a null id with a 404 response, the
database is unchanged, and no transaction-control call is issued. -/
theorem C6_no_orphan_creation (ident : String) (sch : Schema) (db : DB)
    (hnum : pyIsDigit (pyStrip ident) = true →
      db.master.rows.find? (fun r => r.id == toNatD (pyStrip ident)) = none ∧
      db.india.rows.find? (fun r => r.id == toNatD (pyStrip ident)) = none)
    (hemail : pyIsDigit (pyStrip ident) = false →
      db.master.rows.find? (fun r => r.email == pyStrip ident) = none ∧
      db.india.rows.find? (fun r => r.email == pyStrip ident) = none) :
    (resolve_user_id noFault ident sch ⟨db, [], 0⟩).1.1 = none ∧
    ((resolve_user_id noFault ident sch ⟨db, [], 0⟩).1.2.map ErrResponse.statusCode) =
      some 404 ∧
    (resolve_user_id noFault ident sch ⟨db, [], 0⟩).2.db = db ∧
    (resolve_user_id noFault ident sch ⟨db, [], 0⟩).2.effects = [] := by
  by_cases hd : pyIsDigit (pyStrip ident) = true
  · obtain ⟨hm, hi⟩ := hnum hd
    have hmiss : (db.tbl sch).rows.find? (fun r => r.id == toNatD (pyStrip ident)) = none := by
      cases sch
      · exact hm
      · exact hi
    have hmiss2 :
        (db.tbl sch.other).rows.find? (fun r => r.id == toNatD (pyStrip ident)) = none := by
      cases sch
      · exact hi
      · exact hm
    have hrun : resolve_user_id noFault ident sch ⟨db, [], 0⟩ =
        ((none, some ⟨404, "User not found",
          "User ID " ++ Nat.repr (toNatD (pyStrip ident)) ++ " does not exist in any schema"⟩),
         ⟨db, [], 2⟩) := by
      rw [resolve_digit_miss ident sch ⟨db, [], 0⟩ hd hmiss]
      exact cross_none _ sch _ hmiss2
    rw [hrun]
    exact ⟨rfl, rfl, rfl, rfl⟩
  · have hd2 : pyIsDigit (pyStrip ident) = false := by
      cases hx : pyIsDigit (pyStrip ident)
      · rfl
      · exact absurd hx hd
    obtain ⟨hm, hi⟩ := hemail hd2
    cases sch with
    | india =>
      have hrun : resolve_user_id noFault ident .india ⟨db, [], 0⟩ =
          ((none, some ⟨404, "User not found in master schema",
            "No user found with email: " ++ pyStrip ident⟩), ⟨db, [], 2⟩) := by
        rw [resolve_email_miss_india ident ⟨db, [], 0⟩ hd2 hi]
        exact auto_india_src_missing _ _ hm
      rw [hrun]
      exact ⟨rfl, rfl, rfl, rfl⟩
    | master =>
      have hor : db.india.rows.find?
          (fun r => r.email == pyStrip ident || Nat.repr r.id == pyStrip ident) = none :=
        findor_none_of_email_none (pyStrip ident) hd2 db.india.rows hi
      have hrun : resolve_user_id noFault ident .master ⟨db, [], 0⟩ =
          ((none, some (notFoundAnySchema (pyStrip ident))), ⟨db, [], 2⟩) := by
        rw [resolve_email_miss_master ident ⟨db, [], 0⟩ hd2 hm]
        exact auto_master_src_missing _ _ hor
      rw [hrun]
      exact ⟨rfl, rfl, rfl, rfl⟩

/-- Witness for C6: id 999 exists in neither partition of the scenario
database, so resolution 404s and writes nothing. -/
theorem C6_no_orphan_creation_witness :
    (resolve_user_id noFault "999" .india ⟨dbS1, [], 0⟩).1.1 = none ∧
    ((resolve_user_id noFault "999" .india ⟨dbS1, [], 0⟩).1.2.map ErrResponse.statusCode) =
      some 404 ∧
    (resolve_user_id noFault "999" .india ⟨dbS1, [], 0⟩).2.db = dbS1 ∧
    (resolve_user_id noFault "999" .india ⟨dbS1, [], 0⟩).2.effects = [] :=
  C6_no_orphan_creation "999" .india dbS1 (by decide) (by decide)

theorem find?_congr {α : Type} (p q : α → Bool) (l : List α) (h : ∀ x, p x = q x) :
    l.find? p = l.find? q := by
  induction l with
  | nil => rfl
  | cons a t ih => simp only [List.find?, h a, ih]

/-- C4 counterexample: with `a@x.com` present in master and absent from india,
the bookmark resolver's email path returns the 404 response immediately, with
no mirror-creation, although the email exists in the other partition. -/
theorem C4_counterexample :
    (dbS1.master.rows.find? (fun r => r.email == "a@x.com")).isSome = true ∧
    resolve_user_id_fast noFault "a@x.com" .india ⟨dbS1, [], 0⟩ =
      ((none, some ⟨404, "User not found by email", ""⟩), ⟨dbS1, [], 1⟩) :=
  ⟨by decide, by decide⟩

/-- C4 amended: `resolve_user_id` implements the claimed email path — return
the target-partition match when present, mirror the other partition's row
(india ← master, master ← india) when absent, and 404 only when the email is
in neither partition — while `resolve_user_id_fast` returns the
target-partition match or fails with 404 immediately, performing no
mirror-creation on the email path even when the email exists in the other
partition. -/
theorem C4_email_path_amended :
    (∀ ident sch (db : DB) (r : UserRow), pyIsDigit (pyStrip ident) = false →
      (db.tbl sch).rows.find? (fun row => row.email == pyStrip ident) = some r →
      resolve_user_id noFault ident sch ⟨db, [], 0⟩ = ((some r.id, none), ⟨db, [], 1⟩) ∧
      resolve_user_id_fast noFault ident sch ⟨db, [], 0⟩ = ((some r.id, none), ⟨db, [], 1⟩)) ∧
    (∀ ident (db : DB) (mr : UserRow), pyIsDigit (pyStrip ident) = false →
      db.india.rows.find? (fun row => row.email == pyStrip ident) = none →
      db.master.rows.find? (fun row => row.email == pyStrip ident) = some mr →
      resolve_user_id noFault ident .india ⟨db, [], 0⟩ =
        ((some db.india.nextId, none),
         ⟨⟨db.master, ⟨db.india.rows ++ [mr.profile.toRow db.india.nextId],
            db.india.nextId + 1⟩⟩, [.commit], 5⟩)) ∧
    (∀ ident (db : DB) (ir : UserRow), pyIsDigit (pyStrip ident) = false →
      db.master.rows.find? (fun row => row.email == pyStrip ident) = none →
      db.india.rows.find? (fun row => row.email == pyStrip ident) = some ir →
      resolve_user_id noFault ident .master ⟨db, [], 0⟩ =
        ((some db.master.nextId, none),
         ⟨⟨⟨db.master.rows ++ [ir.profile.toRow db.master.nextId], db.master.nextId + 1⟩,
           db.india⟩, [.commit], 3⟩)) ∧
    (∀ ident sch (db : DB), pyIsDigit (pyStrip ident) = false →
      db.master.rows.find? (fun row => row.email == pyStrip ident) = none →
      db.india.rows.find? (fun row => row.email == pyStrip ident) = none →
      ∃ resp : ErrResponse, resp.statusCode = 404 ∧
        resolve_user_id noFault ident sch ⟨db, [], 0⟩ = ((none, some resp), ⟨db, [], 2⟩)) ∧
    (∀ ident sch (db : DB), pyIsDigit (pyStrip ident) = false →
      (db.tbl sch).rows.find? (fun row => row.email == pyStrip ident) = none →
      resolve_user_id_fast noFault ident sch ⟨db, [], 0⟩ =
        ((none, some ⟨404, "User not found by email", ""⟩), ⟨db, [], 1⟩)) := by
  refine ⟨?_, ?_, ?_, ?_, ?_⟩
  · intro ident sch db r hd hf
    exact ⟨resolve_email_hit ident sch ⟨db, [], 0⟩ r hd hf,
           fast_email_hit ident sch ⟨db, [], 0⟩ r hd hf⟩
  · intro ident db mr hd hnone hsome
    rw [resolve_email_miss_india ident ⟨db, [], 0⟩ hd hnone]
    have hpr := List.find?_some hsome
    have hme : mr.email = pyStrip ident := eq_of_beq hpr
    have h2 : db.india.rows.find? (fun r => r.email == mr.email) = none := by
      rw [hme]; exact hnone
    exact auto_india_insert (pyStrip ident) (stBump ⟨db, [], 0⟩) mr hsome h2
  · intro ident db ir hd hnone hsome
    rw [resolve_email_miss_master ident ⟨db, [], 0⟩ hd hnone]
    have hpt : ∀ x : UserRow,
        (x.email == pyStrip ident || Nat.repr x.id == pyStrip ident) =
          (x.email == pyStrip ident) := by
      intro x; rw [natRepr_beq_false _ hd x.id, Bool.or_false]
    have hor : db.india.rows.find?
        (fun r => r.email == pyStrip ident || Nat.repr r.id == pyStrip ident) = some ir := by
      rw [find?_congr _ _ _ hpt]; exact hsome
    have hpr := List.find?_some hsome
    have hie : ir.email = pyStrip ident := eq_of_beq hpr
    have hu : db.master.rows.find? (fun row => row.email == ir.profile.email) = none := by
      rw [profile_email, hie]; exact hnone
    have hup : upsertStmt mergeMaster .master ir.profile db =
        (db.master.nextId,
         ⟨⟨db.master.rows ++ [ir.profile.toRow db.master.nextId], db.master.nextId + 1⟩,
          db.india⟩) := by
      rw [upsertStmt, upsertTbl_insert mergeMaster ir.profile (db.tbl .master) hu]
      rfl
    rw [auto_master_upsert (pyStrip ident) (stBump ⟨db, [], 0⟩) ir hor]
    simp only [stBump_db, stBump_effects, stBump_calls]
    rw [hup]
    rfl
  · intro ident sch db hd hm hi
    cases sch with
    | india =>
      refine ⟨⟨404, "User not found in master schema",
        "No user found with email: " ++ pyStrip ident⟩, rfl, ?_⟩
      rw [resolve_email_miss_india ident ⟨db, [], 0⟩ hd hi]
      exact auto_india_src_missing _ _ hm
    | master =>
      refine ⟨notFoundAnySchema (pyStrip ident), rfl, ?_⟩
      rw [resolve_email_miss_master ident ⟨db, [], 0⟩ hd hm]
      exact auto_master_src_missing _ _
        (findor_none_of_email_none (pyStrip ident) hd db.india.rows hi)
  · intro ident sch db hd hmiss
    exact fast_email_miss ident sch ⟨db, [], 0⟩ hd hmiss

/-- Witness for the amended C4: resolving `a@x.com` against india mirrors
Alice's master row into india under the fresh id 1 and commits. -/
theorem C4_email_path_amended_witness :
    resolve_user_id noFault "a@x.com" .india ⟨dbS1, [], 0⟩ =
      ((some 1, none),
       ⟨⟨dbS1.master, ⟨dbS1.india.rows ++ [rowAlice.profile.toRow 1], 2⟩⟩, [.commit], 5⟩) :=
  C4_email_path_amended.2.1 "a@x.com" dbS1 rowAlice (by decide) (by decide) (by decide)

/-- C5 counterexample: on an email conflict the India-path insert statement
raises a uniqueness violation instead of merging, and the bookmark-path upsert
leaves the gender field untouched even though the incoming profile differs
(only the master-path upsert updates it). -/
theorem C5_counterexample :
    insertIndiaTbl profNew tblOld = .error dupKeyMsg ∧
    (upsertTbl mergeBookmark profNew tblOld).2.rows.map UserRow.gender = ["f"] ∧
    profNew.gender = "m" ∧
    (upsertTbl mergeMaster profNew tblOld).2.rows.map UserRow.gender = ["m"] :=
  ⟨rfl, by decide, rfl, by decide⟩

/-- C5 amended: only the master-path insert is a full create-or-merge keyed by
email — on conflict it keeps the existing id and updates the mutable profile
fields (per `mergeMaster`); the bookmark-path upsert also keeps the id but
merges only the name (per `mergeBookmark`); the India-path statement is a
plain insert that raises a uniqueness violation on an email conflict. -/
theorem C5_upsert_semantics (p : Profile) (t : Table) (r : UserRow)
    (h : t.rows.find? (fun row => row.email == p.email) = some r) :
    (upsertTbl mergeMaster p t).1 = r.id ∧
    (mergeMaster r p).id = r.id ∧
    (upsertTbl mergeMaster p t).2.rows.find? (fun row => row.email == p.email) =
      some (mergeMaster r p) ∧
    (upsertTbl mergeBookmark p t).1 = r.id ∧
    (mergeBookmark r p).id = r.id ∧
    (upsertTbl mergeBookmark p t).2.rows.find? (fun row => row.email == p.email) =
      some (mergeBookmark r p) ∧
    insertIndiaTbl p t = .error dupKeyMsg := by
  have hmem : r ∈ t.rows := List.mem_of_find?_eq_some h
  have hpr := List.find?_some h
  refine ⟨?_, rfl, ?_, ?_, rfl, ?_, ?_⟩
  · rw [upsertTbl_conflict mergeMaster p t r h]
  · rw [upsertTbl_conflict mergeMaster p t r h]
    exact replaceFirst_find_key mergeMaster p (fun r2 => mergeMaster_email r2 p) t.rows r h
  · rw [upsertTbl_conflict mergeBookmark p t r h]
  · rw [upsertTbl_conflict mergeBookmark p t r h]
    exact replaceFirst_find_key mergeBookmark p (fun r2 => mergeBookmark_email r2 p) t.rows r h
  · rw [insertIndiaTbl, if_pos (List.any_eq_true.mpr ⟨r, hmem, hpr⟩)]

/-- Witness for the amended C5 on the concrete conflicting row/profile pair. -/
theorem C5_upsert_semantics_witness :
    (upsertTbl mergeMaster profNew tblOld).1 = 1 ∧
    insertIndiaTbl profNew tblOld = .error dupKeyMsg :=
  ⟨(C5_upsert_semantics profNew tblOld rowOld (by decide)).1,
   (C5_upsert_semantics profNew tblOld rowOld (by decide)).2.2.2.2.2.2⟩

/-- C7 counterexample: when the master-path upsert yields no row, resolution
answers with the 404 not-found response rather than a 500 creation-failure. -/
theorem C7_counterexample :
    (resolve_user_id faultEmptyAt2 "b@y.com" .master ⟨dbBob, [], 0⟩).1 =
      (none, some (notFoundAnySchema "b@y.com")) ∧
    (notFoundAnySchema "b@y.com").statusCode = 404 :=
  ⟨by decide, rfl⟩

/-- C7 amended: a rowless insert/upsert is surfaced as a 500 creation-failure
on the India path and on the bookmark path, but on the master path it falls
through to the 404 not-found response. -/
theorem C7_creation_failed_amended :
    (∀ (f : FaultSpec) (e : String) (s : St) (mr : UserRow),
      f s.calls = .ok →
      (s.db.tbl .master).rows.find? (fun r => r.email == e) = some mr →
      f (s.calls + 1) = .ok →
      (s.db.tbl .india).rows.find? (fun r => r.email == mr.email) = none →
      f (s.calls + 1 + 1) = .empty →
      auto_create_user_in_india f e s =
        ((none, some ⟨500, "Failed to create user in India schema",
          "User insertion succeeded but no ID returned"⟩),
         emit (stBump (stBump (stBump s))) .rollback)) ∧
    (∀ (f : FaultSpec) (e : String) (src tgt : Schema) (s : St) (sr : UserRow),
      f s.calls = .ok →
      (s.db.tbl src).rows.find? (fun r => r.email == e) = some sr →
      f (s.calls + 1) = .empty →
      auto_create_user_cross_schema f e src tgt s =
        ((none, some ⟨500, "Failed to create user", ""⟩), stBump (stBump s))) ∧
    (∀ (f : FaultSpec) (e : String) (s : St) (ir : UserRow),
      f s.calls = .ok →
      (s.db.tbl .india).rows.find? (fun r => r.email == e || Nat.repr r.id == e) = some ir →
      f (s.calls + 1) = .empty →
      auto_create_user_in_master f e s =
        ((none, some (notFoundAnySchema e)), emit (stBump (stBump s)) .commit) ∧
      (notFoundAnySchema e).statusCode = 404) := by
  refine ⟨?_, ?_, ?_⟩
  · intro f e s mr h0 hf1 h1 hf2 h2
    simp [auto_create_user_in_india, readOp, writeOp, h0, hf1, h1, hf2, h2, stBump, emit]
  · intro f e src tgt s sr h0 hf1 h1
    simp [auto_create_user_cross_schema, readOp, writeOp, h0, hf1, h1, stBump, emit]
  · intro f e s ir h0 hf1 h1
    refine ⟨?_, rfl⟩
    simp [auto_create_user_in_master, readOp, writeOp, h0, hf1, h1, stBump, emit]

/-- Witness for the amended C7 on the master path with a rowless upsert. -/
theorem C7_creation_failed_amended_witness :
    auto_create_user_in_master faultEmptyAt2 "b@y.com" ⟨dbBob, [], 1⟩ =
      ((none, some (notFoundAnySchema "b@y.com")),
       emit (stBump (stBump ⟨dbBob, [], 1⟩)) .commit) ∧
    (notFoundAnySchema "b@y.com").statusCode = 404 :=
  C7_creation_failed_amended.2.2 faultEmptyAt2 "b@y.com" ⟨dbBob, [], 1⟩ rowBob
    (by decide) (by decide) (by decide)

/-- C8 counterexample: resolving "5" against india on the scenario database
performs a mirror-creation and issues a COMMIT on the shared connection, so
the Resolver does not leave transaction boundaries to the caller. -/
theorem C8_counterexample :
    (resolve_user_id noFault "5" .india ⟨dbS1, [], 0⟩).2.effects = [Effect.commit] ∧
    (resolve_user_id noFault "5" .india ⟨dbS1, [], 0⟩).1.1 = some 1 :=
  ⟨by decide, by decide⟩

/-- C8 amended: read-only resolution paths issue no transaction control, but
every successful mirror-creation path commits the caller's connection itself,
so on mirror-creation paths transaction boundaries are decided by the
Resolver, not the caller. -/
theorem C8_transaction_control_amended :
    (∀ ident sch (db : DB) (r : UserRow), pyIsDigit (pyStrip ident) = true →
      (db.tbl sch).rows.find? (fun row => row.id == toNatD (pyStrip ident)) = some r →
      (resolve_user_id noFault ident sch ⟨db, [], 0⟩).2.effects = []) ∧
    (∀ ident sch (db : DB) (r : UserRow), pyIsDigit (pyStrip ident) = false →
      (db.tbl sch).rows.find? (fun row => row.email == pyStrip ident) = some r →
      (resolve_user_id noFault ident sch ⟨db, [], 0⟩).2.effects = []) ∧
    (∀ e (s : St) (mr : UserRow),
      (s.db.tbl .master).rows.find? (fun r => r.email == e) = some mr →
      (s.db.tbl .india).rows.find? (fun r => r.email == mr.email) = none →
      (auto_create_user_in_india noFault e s).2.effects = s.effects ++ [Effect.commit]) ∧
    (∀ e (s : St) (ir : UserRow),
      (s.db.tbl .india).rows.find? (fun r => r.email == e || Nat.repr r.id == e) = some ir →
      (auto_create_user_in_master noFault e s).2.effects = s.effects ++ [Effect.commit]) ∧
    (∀ e src tgt (s : St) (sr : UserRow),
      (s.db.tbl src).rows.find? (fun r => r.email == e) = some sr →
      (auto_create_user_cross_schema noFault e src tgt s).2.effects =
        s.effects ++ [Effect.commit]) := by
  refine ⟨?_, ?_, ?_, ?_, ?_⟩
  · intro ident sch db r hd hf
    rw [resolve_digit_hit ident sch ⟨db, [], 0⟩ r hd hf]
    rfl
  · intro ident sch db r hd hf
    rw [resolve_email_hit ident sch ⟨db, [], 0⟩ r hd hf]
    rfl
  · intro e s mr h1 h2
    rw [auto_india_insert e s mr h1 h2]
  · intro e s ir h
    rw [auto_master_upsert e s ir h]
  · intro e src tgt s sr h
    rw [auto_bk_upsert e src tgt s sr h]

/-- Witness for the amended C8: the India mirror-creation on the scenario
database commits. -/
theorem C8_transaction_control_amended_witness :
    (auto_create_user_in_india noFault "a@x.com" ⟨dbS1, [], 0⟩).2.effects =
      [Effect.commit] :=
  C8_transaction_control_amended.2.2.1 "a@x.com" ⟨dbS1, [], 0⟩ rowAlice
    (by decide) (by decide)

/-- C9 counterexample: a permission-denied exception raised by the India
mirror INSERT is caught by the inner handler and surfaced as a generic
insertion-failure 500 carrying the raw message, not as the
permission-classified response `handle_database_error` produces. -/
theorem C9_counterexample :
    (resolve_user_id faultRaiseAt3 "a@x.com" .india ⟨dbS1, [], 0⟩).1.2 =
      some ⟨500, "Failed to insert user in India schema",
        "permission denied for table users"⟩ ∧
    handle_database_error "permission denied for table users" "user auto-creation" =
      ⟨500, "Database permission error. Please contact administrator.",
       "The database user lacks necessary permissions for this operation."⟩ ∧
    ("Failed to insert user in India schema" ≠
      "Database permission error. Please contact administrator.") :=
  ⟨by decide, by decide, by decide⟩

/-- C9 amended: a permission-classified storage failure short-circuits
resolution immediately as the permission-classified 500 on the entry lookup,
on the cross-schema lookups, on the auto-creation source lookups and on the
master/bookmark upserts; only a failure raised inside the India insert block
is instead wrapped as a generic insertion-failure 500 that still carries the
message and still stops resolution; no path retries. -/
theorem C9_storage_error_amended :
    (∀ m op, hasSub (strLower m) "permission denied" = true →
      handle_database_error m op =
        ⟨500, "Database permission error. Please contact administrator.",
         "The database user lacks necessary permissions for this operation."⟩) ∧
    (∀ (f : FaultSpec) ident sch (s : St) m, f s.calls = .raiseErr m →
      resolve_user_id f ident sch s =
        ((none, some (handle_database_error m "user ID resolution")), stBump s)) ∧
    (∀ (f : FaultSpec) uid target (s : St) m, f s.calls = .raiseErr m →
      resolve_numeric_id_cross_schema f uid target s =
        ((none, some (handle_database_error m "cross-schema user resolution")), stBump s)) ∧
    (∀ (f : FaultSpec) e (s : St) m, f s.calls = .raiseErr m →
      auto_create_user_in_india f e s =
        ((none, some (handle_database_error m "user auto-creation")),
         emit (stBump s) .rollback)) ∧
    (∀ (f : FaultSpec) e (s : St) (ir : UserRow) m, f s.calls = .ok →
      (s.db.tbl .india).rows.find? (fun r => r.email == e || Nat.repr r.id == e) = some ir →
      f (s.calls + 1) = .raiseErr m →
      auto_create_user_in_master f e s =
        ((none, some (handle_database_error m "user auto-creation")), stBump (stBump s))) ∧
    (∀ (f : FaultSpec) e src tgt (s : St) (sr : UserRow) m, f s.calls = .ok →
      (s.db.tbl src).rows.find? (fun r => r.email == e) = some sr →
      f (s.calls + 1) = .raiseErr m →
      auto_create_user_cross_schema f e src tgt s =
        ((none, some (handle_database_error m "user auto-creation")),
         emit (stBump (stBump s)) .rollback)) ∧
    (∀ (f : FaultSpec) e (s : St) (mr : UserRow) m, f s.calls = .ok →
      (s.db.tbl .master).rows.find? (fun r => r.email == e) = some mr →
      f (s.calls + 1) = .ok →
      (s.db.tbl .india).rows.find? (fun r => r.email == mr.email) = none →
      f (s.calls + 1 + 1) = .raiseErr m →
      auto_create_user_in_india f e s =
        ((none, some ⟨500, "Failed to insert user in India schema", m⟩),
         emit (stBump (stBump (stBump s))) .rollback)) := by
  refine ⟨?_, ?_, ?_, ?_, ?_, ?_, ?_⟩
  · intro m op h
    simp [handle_database_error, h]
  · intro f ident sch s m h0
    by_cases hd : pyIsDigit (pyStrip ident) = true
    · simp [resolve_user_id, readOp, h0, hd]
    · have hd2 : pyIsDigit (pyStrip ident) = false := by
        cases hx : pyIsDigit (pyStrip ident)
        · rfl
        · exact absurd hx hd
      simp [resolve_user_id, readOp, h0, hd2]
  · intro f uid target s m h0
    simp [resolve_numeric_id_cross_schema, readOp, h0]
  · intro f e s m h0
    simp [auto_create_user_in_india, readOp, h0, emit, stBump]
  · intro f e s ir m h0 hf1 h1
    simp [auto_create_user_in_master, readOp, writeOp, h0, hf1, h1, stBump, emit]
  · intro f e src tgt s sr m h0 hf1 h1
    simp [auto_create_user_cross_schema, readOp, writeOp, h0, hf1, h1, stBump, emit]
  · intro f e s mr m h0 hf1 h1 hf2 h2
    simp [auto_create_user_in_india, readOp, writeOp, h0, hf1, h1, hf2, h2, stBump, emit]

/-- Witness for the amended C9: the concrete permission failure inside the
India insert block yields the generic insertion-failure 500. -/
theorem C9_storage_error_amended_witness :
    auto_create_user_in_india faultRaiseAt3 "a@x.com" ⟨dbS1, [], 1⟩ =
      ((none, some ⟨500, "Failed to insert user in India schema",
        "permission denied for table users"⟩),
       emit (stBump (stBump (stBump ⟨dbS1, [], 1⟩))) .rollback) :=
  C9_storage_error_amended.2.2.2.2.2.2 faultRaiseAt3 "a@x.com" ⟨dbS1, [], 1⟩ rowAlice
    "permission denied for table users" (by decide) (by decide) (by decide) (by decide)
    (by decide)

theorem countP_append_single (p : UserRow → Bool) (l : List UserRow) (row : UserRow) :
    (l ++ [row]).countP p ≤ l.countP p + 1 := by
  rw [List.countP_append]
  have h1 : [row].countP p ≤ 1 := by
    by_cases hp : p row = true
    · simp [List.countP_cons, hp]
    · simp [List.countP_cons, hp]
  omega

/-- C1: idempotence of fault-free resolution — whenever `resolve_user_id`
succeeds with id `u`, an immediately repeated call on the resulting database
returns the same `u` and leaves the database unchanged; moreover the first
call adds at most one row per email to the target partition and never
modifies the other partition. -/
theorem C1_resolution_idempotent (ident : String) (sch : Schema) (db0 : DB) (u : Nat)
    (h : (runResolve ident sch db0).1.1 = some u) :
    (runResolve ident sch (runResolve ident sch db0).2.db).1.1 = some u ∧
    (runResolve ident sch (runResolve ident sch db0).2.db).2.db =
      (runResolve ident sch db0).2.db ∧
    (∀ e, emailCount ((runResolve ident sch db0).2.db.tbl sch) e ≤
      emailCount (db0.tbl sch) e + 1) ∧
    (runResolve ident sch db0).2.db.tbl sch.other = db0.tbl sch.other := by
  by_cases hd : pyIsDigit (pyStrip ident) = true
  · cases hA : (db0.tbl sch).rows.find? (fun row => row.id == toNatD (pyStrip ident)) with
    | some r =>
      have hrun : runResolve ident sch db0 =
          ((some (toNatD (pyStrip ident)), none), ⟨db0, [], 1⟩) :=
        resolve_digit_hit ident sch ⟨db0, [], 0⟩ r hd hA
      have hu : toNatD (pyStrip ident) = u := by
        rw [hrun] at h
        exact Option.some.inj h
      have hdb1 : (runResolve ident sch db0).2.db = db0 := by rw [hrun]
      refine ⟨?_, ?_, ?_, ?_⟩
      · rw [hdb1, hrun]
        show some (toNatD (pyStrip ident)) = some u
        rw [hu]
      · rw [hdb1, hrun]
      · intro e
        rw [hdb1]
        exact Nat.le_succ _
      · rw [hdb1]
    | none =>
      cases hB : (db0.tbl sch.other).rows.find?
          (fun row => row.id == toNatD (pyStrip ident)) with
      | none =>
        have hrun : runResolve ident sch db0 =
            ((none, some ⟨404, "User not found",
              "User ID " ++ Nat.repr (toNatD (pyStrip ident)) ++
                " does not exist in any schema"⟩), ⟨db0, [], 2⟩) := by
          rw [runResolve, resolve_digit_miss ident sch ⟨db0, [], 0⟩ hd hA]
          exact cross_none _ sch _ hB
        rw [hrun] at h
        exact absurd h (by simp)
      | some rsrc =>
        cases hC : (db0.tbl sch).rows.find? (fun row => row.email == rsrc.email) with
        | some rt =>
          have hrun : runResolve ident sch db0 = ((some rt.id, none), ⟨db0, [], 3⟩) := by
            rw [runResolve, resolve_digit_miss ident sch ⟨db0, [], 0⟩ hd hA]
            exact cross_hit _ sch _ rsrc rt hB hC
          have hu : rt.id = u := by
            rw [hrun] at h
            exact Option.some.inj h
          have hdb1 : (runResolve ident sch db0).2.db = db0 := by rw [hrun]
          refine ⟨?_, ?_, ?_, ?_⟩
          · rw [hdb1, hrun]
            show some rt.id = some u
            rw [hu]
          · rw [hdb1, hrun]
          · intro e
            rw [hdb1]
            exact Nat.le_succ _
          · rw [hdb1]
        | none =>
          cases sch with
          | india =>
            have hA2 : db0.india.rows.find?
                (fun row => row.id == toNatD (pyStrip ident)) = none := hA
            have hcross : runResolve ident .india db0 =
                auto_create_user_in_india noFault rsrc.email ⟨db0, [], 3⟩ := by
              rw [runResolve, resolve_digit_miss ident .india ⟨db0, [], 0⟩ hd hA]
              exact cross_mirror_india _ _ rsrc hB hC
            cases hD : db0.master.rows.find? (fun r => r.email == rsrc.email) with
            | none =>
              have hrun : runResolve ident .india db0 =
                  ((none, some ⟨404, "User not found in master schema",
                    "No user found with email: " ++ rsrc.email⟩), ⟨db0, [], 4⟩) := by
                rw [hcross]
                exact auto_india_src_missing _ _ hD
              rw [hrun] at h
              exact absurd h (by simp)
            | some mr =>
              have hC2 : db0.india.rows.find? (fun r => r.email == rsrc.email) = none := hC
              have hpr2 := List.find?_some hD
              have hmre : mr.email = rsrc.email := eq_of_beq hpr2
              have h2 : db0.india.rows.find? (fun r => r.email == mr.email) = none := by
                rw [hmre]; exact hC2
              have hrun : runResolve ident .india db0 =
                  ((some db0.india.nextId, none), ⟨dbMirrorIndia db0 mr, [.commit], 7⟩) := by
                rw [hcross]
                exact auto_india_insert rsrc.email ⟨db0, [], 3⟩ mr hD h2
              have hu : db0.india.nextId = u := by
                rw [hrun] at h
                exact Option.some.inj h
              have hdb1 : (runResolve ident .india db0).2.db = dbMirrorIndia db0 mr := by
                rw [hrun]
              cases hnu : (db0.india.nextId == toNatD (pyStrip ident)) with
              | true =>
                have hfind2 : ((dbMirrorIndia db0 mr).tbl .india).rows.find?
                    (fun row => row.id == toNatD (pyStrip ident)) =
                    some (mr.profile.toRow db0.india.nextId) := by
                  show (db0.india.rows ++ [mr.profile.toRow db0.india.nextId]).find? _ = _
                  rw [find?_append_none _ _ _ hA2]
                  simp [List.find?, hnu]
                have hrun2 : runResolve ident .india (dbMirrorIndia db0 mr) =
                    ((some (toNatD (pyStrip ident)), none), ⟨dbMirrorIndia db0 mr, [], 1⟩) :=
                  resolve_digit_hit ident .india _ _ hd hfind2
                have huid : toNatD (pyStrip ident) = u := by
                  rw [← eq_of_beq hnu]
                  exact hu
                refine ⟨?_, ?_, ?_, ?_⟩
                · rw [hdb1, hrun2]
                  show some (toNatD (pyStrip ident)) = some u
                  rw [huid]
                · rw [hdb1, hrun2]
                · intro e
                  rw [hdb1]
                  show (db0.india.rows ++ [mr.profile.toRow db0.india.nextId]).countP
                      (fun r => r.email == e) ≤
                    db0.india.rows.countP (fun r => r.email == e) + 1
                  exact countP_append_single _ _ _
                · rw [hdb1]
                  rfl
              | false =>
                have hfind2 : ((dbMirrorIndia db0 mr).tbl .india).rows.find?
                    (fun row => row.id == toNatD (pyStrip ident)) = none := by
                  show (db0.india.rows ++ [mr.profile.toRow db0.india.nextId]).find? _ = _
                  rw [find?_append_none _ _ _ hA2]
                  simp [List.find?, hnu]
                have hfind3 : ((dbMirrorIndia db0 mr).tbl .india).rows.find?
                    (fun row => row.email == rsrc.email) =
                    some (mr.profile.toRow db0.india.nextId) := by
                  show (db0.india.rows ++ [mr.profile.toRow db0.india.nextId]).find? _ = _
                  rw [find?_append_none _ _ _ hC2]
                  simp [List.find?, hmre]
                have hrun2 : runResolve ident .india (dbMirrorIndia db0 mr) =
                    ((some (mr.profile.toRow db0.india.nextId).id, none),
                     ⟨dbMirrorIndia db0 mr, [], 3⟩) := by
                  rw [runResolve,
                    resolve_digit_miss ident .india ⟨dbMirrorIndia db0 mr, [], 0⟩ hd hfind2]
                  exact cross_hit _ .india _ rsrc _ hB hfind3
                refine ⟨?_, ?_, ?_, ?_⟩
                · rw [hdb1, hrun2]
                  show some db0.india.nextId = some u
                  rw [hu]
                · rw [hdb1, hrun2]
                · intro e
                  rw [hdb1]
                  show (db0.india.rows ++ [mr.profile.toRow db0.india.nextId]).countP
                      (fun r => r.email == e) ≤
                    db0.india.rows.countP (fun r => r.email == e) + 1
                  exact countP_append_single _ _ _
                · rw [hdb1]
                  rfl
          | master =>
            have hA2 : db0.master.rows.find?
                (fun row => row.id == toNatD (pyStrip ident)) = none := hA
            have hC2 : db0.master.rows.find? (fun row => row.email == rsrc.email) = none := hC
            have hcross : runResolve ident .master db0 =
                auto_create_user_in_master noFault rsrc.email ⟨db0, [], 3⟩ := by
              rw [runResolve, resolve_digit_miss ident .master ⟨db0, [], 0⟩ hd hA]
              exact cross_mirror_master _ _ rsrc hB hC
            cases hD : db0.india.rows.find?
                (fun r => r.email == rsrc.email || Nat.repr r.id == rsrc.email) with
            | none =>
              have hrun : runResolve ident .master db0 =
                  ((none, some (notFoundAnySchema rsrc.email)), ⟨db0, [], 4⟩) := by
                rw [hcross]
                exact auto_master_src_missing _ _ hD
              rw [hrun] at h
              exact absurd h (by simp)
            | some ir =>
              cases hU : db0.master.rows.find?
                  (fun row => row.email == ir.profile.email) with
              | none =>
                have hup : upsertStmt mergeMaster .master ir.profile db0 =
                    (db0.master.nextId, dbMirrorMaster db0 ir) := by
                  rw [upsertStmt, upsertTbl_insert mergeMaster ir.profile (db0.tbl .master) hU]
                  rfl
                have hrun : runResolve ident .master db0 =
                    ((some db0.master.nextId, none),
                     ⟨dbMirrorMaster db0 ir, [.commit], 5⟩) := by
                  rw [hcross, auto_master_upsert rsrc.email ⟨db0, [], 3⟩ ir hD]
                  have hsdb : ((⟨db0, [], 3⟩ : St)).db = db0 := rfl
                  rw [hsdb, hup]
                  rfl
                have hu : db0.master.nextId = u := by
                  rw [hrun] at h
                  exact Option.some.inj h
                have hdb1 : (runResolve ident .master db0).2.db = dbMirrorMaster db0 ir := by
                  rw [hrun]
                cases hmu : (db0.master.nextId == toNatD (pyStrip ident)) with
                | true =>
                  have hfind2 : ((dbMirrorMaster db0 ir).tbl .master).rows.find?
                      (fun row => row.id == toNatD (pyStrip ident)) =
                      some (ir.profile.toRow db0.master.nextId) := by
                    show (db0.master.rows ++ [ir.profile.toRow db0.master.nextId]).find? _ = _
                    rw [find?_append_none _ _ _ hA2]
                    simp [List.find?, hmu]
                  have hrun2 : runResolve ident .master (dbMirrorMaster db0 ir) =
                      ((some (toNatD (pyStrip ident)), none),
                       ⟨dbMirrorMaster db0 ir, [], 1⟩) :=
                    resolve_digit_hit ident .master _ _ hd hfind2
                  have huid : toNatD (pyStrip ident) = u := by
                    rw [← eq_of_beq hmu]
                    exact hu
                  refine ⟨?_, ?_, ?_, ?_⟩
                  · rw [hdb1, hrun2]
                    show some (toNatD (pyStrip ident)) = some u
                    rw [huid]
                  · rw [hdb1, hrun2]
                  · intro e
                    rw [hdb1]
                    show (db0.master.rows ++ [ir.profile.toRow db0.master.nextId]).countP
                        (fun r => r.email == e) ≤
                      db0.master.rows.countP (fun r => r.email == e) + 1
                    exact countP_append_single _ _ _
                  · rw [hdb1]
                    rfl
                | false =>
                  have hfind2 : ((dbMirrorMaster db0 ir).tbl .master).rows.find?
                      (fun row => row.id == toNatD (pyStrip ident)) = none := by
                    show (db0.master.rows ++ [ir.profile.toRow db0.master.nextId]).find? _ = _
                    rw [find?_append_none _ _ _ hA2]
                    simp [List.find?, hmu]
                  cases hb : (ir.email == rsrc.email) with
                  | true =>
                    have hfind3 : ((dbMirrorMaster db0 ir).tbl .master).rows.find?
                        (fun row => row.email == rsrc.email) =
                        some (ir.profile.toRow db0.master.nextId) := by
                      show (db0.master.rows ++
                          [ir.profile.toRow db0.master.nextId]).find? _ = _
                      rw [find?_append_none _ _ _ hC2]
                      simp [List.find?, hb]
                    have hrun2 : runResolve ident .master (dbMirrorMaster db0 ir) =
                        ((some (ir.profile.toRow db0.master.nextId).id, none),
                         ⟨dbMirrorMaster db0 ir, [], 3⟩) := by
                      rw [runResolve,
                        resolve_digit_miss ident .master
                          ⟨dbMirrorMaster db0 ir, [], 0⟩ hd hfind2]
                      exact cross_hit _ .master _ rsrc _ hB hfind3
                    refine ⟨?_, ?_, ?_, ?_⟩
                    · rw [hdb1, hrun2]
                      show some db0.master.nextId = some u
                      rw [hu]
                    · rw [hdb1, hrun2]
                    · intro e
                      rw [hdb1]
                      show (db0.master.rows ++ [ir.profile.toRow db0.master.nextId]).countP
                          (fun r => r.email == e) ≤
                        db0.master.rows.countP (fun r => r.email == e) + 1
                      exact countP_append_single _ _ _
                    · rw [hdb1]
                      rfl
                  | false =>
                    have hfind3 : ((dbMirrorMaster db0 ir).tbl .master).rows.find?
                        (fun row => row.email == rsrc.email) = none := by
                      show (db0.master.rows ++
                          [ir.profile.toRow db0.master.nextId]).find? _ = _
                      rw [find?_append_none _ _ _ hC2]
                      simp [List.find?, hb]
                    have hfindkey : ((dbMirrorMaster db0 ir).tbl .master).rows.find?
                        (fun row => row.email == ir.profile.email) =
                        some (ir.profile.toRow db0.master.nextId) := by
                      show (db0.master.rows ++
                          [ir.profile.toRow db0.master.nextId]).find? _ = _
                      rw [find?_append_none _ _ _ hU]
                      simp [List.find?]
                    have hrf : replaceFirstByEmail mergeMaster ir.profile
                        (db0.master.rows ++ [ir.profile.toRow db0.master.nextId]) =
                        db0.master.rows ++ [ir.profile.toRow db0.master.nextId] :=
                      replaceFirst_self mergeMaster ir.profile _ _ hfindkey
                        (mergeMaster_toRow ir.profile db0.master.nextId)
                    have hup2 : upsertStmt mergeMaster .master ir.profile
                        (dbMirrorMaster db0 ir) =
                        (db0.master.nextId, dbMirrorMaster db0 ir) := by
                      rw [upsertStmt,
                        upsertTbl_conflict mergeMaster ir.profile
                          ((dbMirrorMaster db0 ir).tbl .master) _ hfindkey,
                        show replaceFirstByEmail mergeMaster ir.profile
                            ((dbMirrorMaster db0 ir).tbl Schema.master).rows =
                          db0.master.rows ++ [ir.profile.toRow db0.master.nextId] from hrf]
                      rfl
                    have hrun2 : runResolve ident .master (dbMirrorMaster db0 ir) =
                        ((some db0.master.nextId, none),
                         ⟨dbMirrorMaster db0 ir, [.commit], 5⟩) := by
                      rw [runResolve,
                        resolve_digit_miss ident .master
                          ⟨dbMirrorMaster db0 ir, [], 0⟩ hd hfind2,
                        cross_mirror_master _ _ rsrc hB hfind3,
                        auto_master_upsert rsrc.email
                          (stBump (stBump (stBump ⟨dbMirrorMaster db0 ir, [], 0⟩))) ir hD]
                      have hsdb : (stBump (stBump (stBump
                          (⟨dbMirrorMaster db0 ir, [], 0⟩ : St)))).db =
                          dbMirrorMaster db0 ir := rfl
                      rw [hsdb, hup2]
                      rfl
                    refine ⟨?_, ?_, ?_, ?_⟩
                    · rw [hdb1, hrun2]
                      show some db0.master.nextId = some u
                      rw [hu]
                    · rw [hdb1, hrun2]
                    · intro e
                      rw [hdb1]
                      show (db0.master.rows ++ [ir.profile.toRow db0.master.nextId]).countP
                          (fun r => r.email == e) ≤
                        db0.master.rows.countP (fun r => r.email == e) + 1
                      exact countP_append_single _ _ _
                    · rw [hdb1]
                      rfl
              | some rm =>
                have hup : upsertStmt mergeMaster .master ir.profile db0 =
                    (rm.id, dbMergeMaster db0 ir) := by
                  rw [upsertStmt,
                    upsertTbl_conflict mergeMaster ir.profile (db0.tbl .master) rm hU]
                  rfl
                have hrun : runResolve ident .master db0 =
                    ((some rm.id, none), ⟨dbMergeMaster db0 ir, [.commit], 5⟩) := by
                  rw [hcross, auto_master_upsert rsrc.email ⟨db0, [], 3⟩ ir hD]
                  have hsdb : ((⟨db0, [], 3⟩ : St)).db = db0 := rfl
                  rw [hsdb, hup]
                  rfl
                have hu : rm.id = u := by
                  rw [hrun] at h
                  exact Option.some.inj h
                have hdb1 : (runResolve ident .master db0).2.db = dbMergeMaster db0 ir := by
                  rw [hrun]
                have hkeys : ∀ r2 : UserRow,
                    ((mergeMaster r2 ir.profile).id, (mergeMaster r2 ir.profile).email) =
                      (r2.id, r2.email) := fun r2 => mergeMaster_keys ir.profile r2
                have hfind2 : ((dbMergeMaster db0 ir).tbl .master).rows.find?
                    (fun row => row.id == toNatD (pyStrip ident)) = none := by
                  show (replaceFirstByEmail mergeMaster ir.profile db0.master.rows).find? _ = _
                  exact replaceFirst_find_id_none mergeMaster ir.profile hkeys _ _ hA
                have hfind3 : ((dbMergeMaster db0 ir).tbl .master).rows.find?
                    (fun row => row.email == rsrc.email) = none := by
                  show (replaceFirstByEmail mergeMaster ir.profile db0.master.rows).find? _ = _
                  exact replaceFirst_find_email_none mergeMaster ir.profile hkeys _ _ hC
                have hfindkey : ((dbMergeMaster db0 ir).tbl .master).rows.find?
                    (fun row => row.email == ir.profile.email) =
                    some (mergeMaster rm ir.profile) := by
                  show (replaceFirstByEmail mergeMaster ir.profile db0.master.rows).find? _ = _
                  exact replaceFirst_find_key mergeMaster ir.profile
                    (fun r2 => mergeMaster_email r2 ir.profile) _ rm hU
                have hrf2 : replaceFirstByEmail mergeMaster ir.profile
                    (replaceFirstByEmail mergeMaster ir.profile db0.master.rows) =
                    replaceFirstByEmail mergeMaster ir.profile db0.master.rows :=
                  replaceFirst_self mergeMaster ir.profile _ _ hfindkey
                    (mergeMaster_idem rm ir.profile)
                have hup2 : upsertStmt mergeMaster .master ir.profile (dbMergeMaster db0 ir) =
                    (rm.id, dbMergeMaster db0 ir) := by
                  rw [upsertStmt,
                    upsertTbl_conflict mergeMaster ir.profile
                      ((dbMergeMaster db0 ir).tbl .master) _ hfindkey,
                    show replaceFirstByEmail mergeMaster ir.profile
                        ((dbMergeMaster db0 ir).tbl Schema.master).rows =
                      replaceFirstByEmail mergeMaster ir.profile db0.master.rows from hrf2]
                  rfl
                have hrun2 : runResolve ident .master (dbMergeMaster db0 ir) =
                    ((some rm.id, none), ⟨dbMergeMaster db0 ir, [.commit], 5⟩) := by
                  rw [runResolve,
                    resolve_digit_miss ident .master ⟨dbMergeMaster db0 ir, [], 0⟩ hd hfind2,
                    cross_mirror_master _ _ rsrc hB hfind3,
                    auto_master_upsert rsrc.email
                      (stBump (stBump (stBump ⟨dbMergeMaster db0 ir, [], 0⟩))) ir hD]
                  have hsdb : (stBump (stBump (stBump
                      (⟨dbMergeMaster db0 ir, [], 0⟩ : St)))).db = dbMergeMaster db0 ir := rfl
                  rw [hsdb, hup2]
                  rfl
                refine ⟨?_, ?_, ?_, ?_⟩
                · rw [hdb1, hrun2]
                  show some rm.id = some u
                  rw [hu]
                · rw [hdb1, hrun2]
                · intro e
                  rw [hdb1]
                  show (replaceFirstByEmail mergeMaster ir.profile db0.master.rows).countP
                      (fun r => r.email == e) ≤
                    db0.master.rows.countP (fun r => r.email == e) + 1
                  rw [replaceFirst_countP_email mergeMaster ir.profile hkeys e db0.master.rows]
                  exact Nat.le_succ _
                · rw [hdb1]
                  rfl
  · have hd2 : pyIsDigit (pyStrip ident) = false := by
      cases hx : pyIsDigit (pyStrip ident)
      · rfl
      · exact absurd hx hd
    cases hA : (db0.tbl sch).rows.find? (fun row => row.email == pyStrip ident) with
    | some r =>
      have hrun : runResolve ident sch db0 = ((some r.id, none), ⟨db0, [], 1⟩) :=
        resolve_email_hit ident sch ⟨db0, [], 0⟩ r hd2 hA
      have hu : r.id = u := by
        rw [hrun] at h
        exact Option.some.inj h
      have hdb1 : (runResolve ident sch db0).2.db = db0 := by rw [hrun]
      refine ⟨?_, ?_, ?_, ?_⟩
      · rw [hdb1, hrun]
        show some r.id = some u
        rw [hu]
      · rw [hdb1, hrun]
      · intro e
        rw [hdb1]
        exact Nat.le_succ _
      · rw [hdb1]
    | none =>
      cases sch with
      | india =>
        have hA2 : db0.india.rows.find? (fun row => row.email == pyStrip ident) = none := hA
        have hauto : runResolve ident .india db0 =
            auto_create_user_in_india noFault (pyStrip ident) ⟨db0, [], 1⟩ := by
          rw [runResolve]
          exact resolve_email_miss_india ident ⟨db0, [], 0⟩ hd2 hA
        cases hD : db0.master.rows.find? (fun r => r.email == pyStrip ident) with
        | none =>
          have hrun : runResolve ident .india db0 =
              ((none, some ⟨404, "User not found in master schema",
                "No user found with email: " ++ pyStrip ident⟩), ⟨db0, [], 2⟩) := by
            rw [hauto]
            exact auto_india_src_missing _ _ hD
          rw [hrun] at h
          exact absurd h (by simp)
        | some mr =>
          have hpr2 := List.find?_some hD
          have hmre : mr.email = pyStrip ident := eq_of_beq hpr2
          have h2 : db0.india.rows.find? (fun r => r.email == mr.email) = none := by
            rw [hmre]; exact hA2
          have hrun : runResolve ident .india db0 =
              ((some db0.india.nextId, none), ⟨dbMirrorIndia db0 mr, [.commit], 5⟩) := by
            rw [hauto]
            exact auto_india_insert (pyStrip ident) ⟨db0, [], 1⟩ mr hD h2
          have hu : db0.india.nextId = u := by
            rw [hrun] at h
            exact Option.some.inj h
          have hdb1 : (runResolve ident .india db0).2.db = dbMirrorIndia db0 mr := by
            rw [hrun]
          have hfind2 : ((dbMirrorIndia db0 mr).tbl .india).rows.find?
              (fun row => row.email == pyStrip ident) =
              some (mr.profile.toRow db0.india.nextId) := by
            show (db0.india.rows ++ [mr.profile.toRow db0.india.nextId]).find? _ = _
            rw [find?_append_none _ _ _ hA2]
            simp [List.find?, hmre]
          have hrun2 : runResolve ident .india (dbMirrorIndia db0 mr) =
              ((some (mr.profile.toRow db0.india.nextId).id, none),
               ⟨dbMirrorIndia db0 mr, [], 1⟩) :=
            resolve_email_hit ident .india _ _ hd2 hfind2
          refine ⟨?_, ?_, ?_, ?_⟩
          · rw [hdb1, hrun2]
            show some db0.india.nextId = some u
            rw [hu]
          · rw [hdb1, hrun2]
          · intro e
            rw [hdb1]
            show (db0.india.rows ++ [mr.profile.toRow db0.india.nextId]).countP
                (fun r => r.email == e) ≤
              db0.india.rows.countP (fun r => r.email == e) + 1
            exact countP_append_single _ _ _
          · rw [hdb1]
            rfl
      | master =>
        have hA2 : db0.master.rows.find? (fun row => row.email == pyStrip ident) = none := hA
        have hauto : runResolve ident .master db0 =
            auto_create_user_in_master noFault (pyStrip ident) ⟨db0, [], 1⟩ := by
          rw [runResolve]
          exact resolve_email_miss_master ident ⟨db0, [], 0⟩ hd2 hA
        cases hD : db0.india.rows.find?
            (fun r => r.email == pyStrip ident || Nat.repr r.id == pyStrip ident) with
        | none =>
          have hrun : runResolve ident .master db0 =
              ((none, some (notFoundAnySchema (pyStrip ident))), ⟨db0, [], 2⟩) := by
            rw [hauto]
            exact auto_master_src_missing _ _ hD
          rw [hrun] at h
          exact absurd h (by simp)
        | some ir =>
          have hpr2 := List.find?_some hD
          have hie : ir.email = pyStrip ident := by
            have hrep := natRepr_beq_false (pyStrip ident) hd2 ir.id
            simp only [Bool.or_eq_true] at hpr2
            rcases hpr2 with hh | hh
            · exact eq_of_beq hh
            · rw [hrep] at hh; cases hh
          have hU2 : db0.master.rows.find?
              (fun row => row.email == ir.profile.email) = none := by
            rw [profile_email, hie]; exact hA2
          have hup : upsertStmt mergeMaster .master ir.profile db0 =
              (db0.master.nextId, dbMirrorMaster db0 ir) := by
            rw [upsertStmt, upsertTbl_insert mergeMaster ir.profile (db0.tbl .master) hU2]
            rfl
          have hrun : runResolve ident .master db0 =
              ((some db0.master.nextId, none), ⟨dbMirrorMaster db0 ir, [.commit], 3⟩) := by
            rw [hauto, auto_master_upsert (pyStrip ident) ⟨db0, [], 1⟩ ir hD]
            have hsdb : ((⟨db0, [], 1⟩ : St)).db = db0 := rfl
            rw [hsdb, hup]
            rfl
          have hu : db0.master.nextId = u := by
            rw [hrun] at h
            exact Option.some.inj h
          have hdb1 : (runResolve ident .master db0).2.db = dbMirrorMaster db0 ir := by
            rw [hrun]
          have hfind2 : ((dbMirrorMaster db0 ir).tbl .master).rows.find?
              (fun row => row.email == pyStrip ident) =
              some (ir.profile.toRow db0.master.nextId) := by
            show (db0.master.rows ++ [ir.profile.toRow db0.master.nextId]).find? _ = _
            rw [find?_append_none _ _ _ hA2]
            simp [List.find?, hie]
          have hrun2 : runResolve ident .master (dbMirrorMaster db0 ir) =
              ((some (ir.profile.toRow db0.master.nextId).id, none),
               ⟨dbMirrorMaster db0 ir, [], 1⟩) :=
            resolve_email_hit ident .master _ _ hd2 hfind2
          refine ⟨?_, ?_, ?_, ?_⟩
          · rw [hdb1, hrun2]
            show some db0.master.nextId = some u
            rw [hu]
          · rw [hdb1, hrun2]
          · intro e
            rw [hdb1]
            show (db0.master.rows ++ [ir.profile.toRow db0.master.nextId]).countP
                (fun r => r.email == e) ≤
              db0.master.rows.countP (fun r => r.email == e) + 1
            exact countP_append_single _ _ _
          · rw [hdb1]
            rfl

/-- Witness for C1: resolving "5" against india on the scenario database
succeeds with id 1, and the instantiated idempotence conclusions hold. -/
theorem C1_resolution_idempotent_witness :
    (runResolve "5" .india (runResolve "5" .india dbS1).2.db).1.1 = some 1 ∧
    (runResolve "5" .india (runResolve "5" .india dbS1).2.db).2.db =
      (runResolve "5" .india dbS1).2.db ∧
    (∀ e, emailCount ((runResolve "5" .india dbS1).2.db.tbl .india) e ≤
      emailCount (dbS1.tbl .india) e + 1) ∧
    (runResolve "5" .india dbS1).2.db.tbl Schema.india.other =
      dbS1.tbl Schema.india.other :=
  C1_resolution_idempotent "5" .india dbS1 1 (by decide)
